import Mathlib

/-!
Verification development for the `iam-looker` provisioning automation.

The definitions below are a shallow embedding of the Python sources:

* `src/iam_looker/provisioner.py` — the `LookerProvisioner` methods
  (`ensure_group`, `ensure_project_folder`, `clone_dashboard_if_missing`,
  `ensure_saml_group_mapping`, `provision`, `decommission_project`);
* `src/iam_looker/handler.py` — `_decode_pubsub` and `handle_event`;
* `functions/main.py` — the `add_user_to_group` single-operation handler.

The remote Looker SDK is an external collaborator of the system; it is
modelled as a record of call functions (`Sdk`) over an abstract remote
state `σ`.  Every call may fail with a message (Python exception) and may
change the remote state.  A concrete stateful instance `fakeSdk`, built in
the style of the repository's own `MockSDK` test fake but with a global
fresh-id counter and a call log, models the remote platform for the
stateful claims.
-/

namespace IamLooker

/-- Error taxonomy of the provisioner: `iam_looker.exceptions` defines
`ValidationError` and `ProvisioningError`. -/
inductive PErr where
  | validation (msg : String)
  | provisioning (msg : String)
deriving Repr, DecidableEq

/-- Result object of a Looker group call: `id` and `name` are read with
`getattr(obj, field, None)`, hence optional. -/
structure GroupObj where
  id : Option Nat
  name : Option String
deriving Repr, DecidableEq

/-- Result object of a Looker folder call (only `id` is read by the code). -/
structure FolderObj where
  id : Option Nat
deriving Repr, DecidableEq

/-- Result object of a Looker dashboard call (`id` and `title` are read
with `getattr`). -/
structure DashObj where
  id : Option Nat
  title : Option String
deriving Repr, DecidableEq

/-- One entry of the SAML configuration's group list (`name` and `id` read
with `getattr`). -/
structure SamlEntryObj where
  name : Option String
  id : Option Nat
deriving Repr, DecidableEq

/-- The singleton SAML configuration object; its `groups` attribute is read
with `getattr(saml_cfg, "groups", [])`. -/
structure SamlConfigObj where
  groups : Option (List SamlEntryObj)
deriving Repr, DecidableEq

/-- Result object of a scheduled-plan call (only `id` is read). -/
structure PlanObj where
  id : Option Nat
deriving Repr, DecidableEq

/-- Capability surface of the remote Looker SDK used by the provisioner.
Each call takes the remote state, may fail with a message (a Python
exception rendered by `str`), and returns the possibly-changed state. -/
structure Sdk (σ : Type) where
  search_groups : String → σ → Except String (List GroupObj) × σ
  create_group : String → σ → Except String GroupObj × σ
  search_folders : String → σ → Except String (List FolderObj) × σ
  create_folder : String → Option String → σ → Except String FolderObj × σ
  dashboard : Nat → σ → Except String DashObj × σ
  search_dashboards_title : String → σ → Except String (List DashObj) × σ
  dashboard_copy : Nat → String → Nat → σ → Except String DashObj × σ
  saml_config : σ → Except String SamlConfigObj × σ
  update_saml_config : List SamlEntryObj → σ → Except String Unit × σ
  search_dashboards_folder : Option Nat → σ → Except String (List DashObj) × σ
  delete_dashboard : Nat → σ → Except String Unit × σ
  scheduled_plans_for_dashboard : Nat → σ → Except String (List PlanObj) × σ
  delete_scheduled_plan : Nat → σ → Except String Unit × σ
  update_folder : Option Nat → String → σ → Except String Unit × σ

variable {σ : Type}

/-- Embedding of `LookerProvisioner.ensure_group` (provisioner.py lines
41-81): search by name, reuse the first hit, otherwise create; a missing
identifier on either path raises `ProvisioningError`. -/
def ensure_group (sdk : Sdk σ) (group_email : String) (s : σ) : Except PErr Nat × σ :=
  match sdk.search_groups group_email s with
  | (.error e, s1) => (.error (.provisioning ("search_groups failed: " ++ e)), s1)
  | (.ok existing, s1) =>
    match existing with
    | g :: _ =>
      match g.id with
      | none => (.error (.provisioning ("Group " ++ group_email ++ " found but has no ID")), s1)
      | some gid => (.ok gid, s1)
    | [] =>
      match sdk.create_group group_email s1 with
      | (.error e, s2) => (.error (.provisioning ("create_group failed: " ++ e)), s2)
      | (.ok created, s2) =>
        match created.id with
        | none =>
          (.error (.provisioning ("Created group " ++ group_email ++ " but no ID returned")), s2)
        | some gid => (.ok gid, s2)

/-- Python truthiness of the optional `parent_id` argument: the create
body of `ensure_project_folder` includes `parent_id` only when it is a
non-empty string. -/
def truthyParent : Option String → Option String
  | some p => if p == "" then none else some p
  | none => none

/-- Embedding of `LookerProvisioner.ensure_project_folder` (provisioner.py
lines 215-254).  The create body includes `parent_id` only when the given
parent is truthy (a non-empty string). -/
def ensure_project_folder (sdk : Sdk σ) (project_id : String) (parent_id : Option String)
    (s : σ) : Except PErr Nat × σ :=
  match sdk.search_folders ("Project: " ++ project_id) s with
  | (.error e, s1) => (.error (.provisioning ("search_folders failed: " ++ e)), s1)
  | (.ok existing, s1) =>
    match existing with
    | f :: _ =>
      match f.id with
      | none =>
        (.error (.provisioning ("Folder Project: " ++ project_id ++ " found but has no ID")), s1)
      | some fid => (.ok fid, s1)
    | [] =>
      match sdk.create_folder ("Project: " ++ project_id) (truthyParent parent_id) s1 with
      | (.error e, s2) => (.error (.provisioning ("create_folder failed: " ++ e)), s2)
      | (.ok created, s2) =>
        match created.id with
        | none =>
          (.error (.provisioning
            ("Created folder Project: " ++ project_id ++ " but no ID returned")), s2)
        | some fid => (.ok fid, s2)

/-- The copy branch of `clone_dashboard_if_missing` (provisioner.py lines
321-336): issue `dashboard_copy` and fail on a missing identifier. -/
def clone_copy_phase (sdk : Sdk σ) (template_dashboard_id target_folder_id : Nat)
    (desired_title : String) (s : σ) : Except PErr Nat × σ :=
  match sdk.dashboard_copy template_dashboard_id desired_title target_folder_id s with
  | (.error e, s1) => (.error (.provisioning ("dashboard_copy failed: " ++ e)), s1)
  | (.ok cloned, s1) =>
    match cloned.id with
    | none =>
      (.error (.provisioning ("Cloned dashboard " ++ desired_title ++ " but no ID returned")), s1)
    | some did => (.ok did, s1)

/-- The title `clone_dashboard_if_missing` derives for a clone: the
template's title (falling back to `"dashboard-{id}"` when the fetched
object has no `title` attribute) with the project suffix appended
(provisioner.py lines 306-307). -/
def desired_title_of (template : DashObj) (template_dashboard_id : Nat)
    (project_id : String) : String :=
  template.title.getD ("dashboard-" ++ toString template_dashboard_id) ++
    " (project: " ++ project_id ++ ")"

/-- Embedding of `LookerProvisioner.clone_dashboard_if_missing`
(provisioner.py lines 285-336).  The template fetch failure is fatal; the
title-search failure is swallowed (`except Exception: existing = []`) and
treated as an empty search result; the title `base_title` falls back to
`"dashboard-{id}"` when the template has no `title` attribute. -/
def clone_dashboard_if_missing (sdk : Sdk σ) (template_dashboard_id target_folder_id : Nat)
    (project_id : String) (s : σ) : Except PErr Nat × σ :=
  match sdk.dashboard template_dashboard_id s with
  | (.error e, s1) => (.error (.provisioning ("dashboard fetch failed: " ++ e)), s1)
  | (.ok template, s1) =>
    match sdk.search_dashboards_title
        (desired_title_of template template_dashboard_id project_id) s1 with
    | (.error _, s2) =>
      clone_copy_phase sdk template_dashboard_id target_folder_id
        (desired_title_of template template_dashboard_id project_id) s2
    | (.ok existing, s2) =>
      match existing with
      | d :: _ =>
        match d.id with
        | none =>
          (.error (.provisioning ("Dashboard " ++
            desired_title_of template template_dashboard_id project_id ++
            " found but has no ID")), s2)
        | some did => (.ok did, s2)
      | [] =>
        clone_copy_phase sdk template_dashboard_id target_folder_id
          (desired_title_of template template_dashboard_id project_id) s2

/-- Embedding of `LookerProvisioner.ensure_saml_group_mapping`
(provisioner.py lines 670-707): read the singleton SAML configuration,
return if the group email is already mapped by name, otherwise write back
the full list with the new entry appended. -/
def ensure_saml_group_mapping (sdk : Sdk σ) (group_id : Nat) (group_email : String)
    (s : σ) : Except PErr Unit × σ :=
  match sdk.saml_config s with
  | (.error e, s1) => (.error (.provisioning ("saml_config failed: " ++ e)), s1)
  | (.ok saml_cfg, s1) =>
    if (saml_cfg.groups.getD []).any (fun g => g.name == some group_email) then
      (.ok (), s1)
    else
      match sdk.update_saml_config
          (saml_cfg.groups.getD [] ++ [⟨some group_email, some group_id⟩]) s1 with
      | (.error e, s2) => (.error (.provisioning ("update_saml_config failed: " ++ e)), s2)
      | (.ok _, s2) => (.ok (), s2)

/-- The dashboard-cloning loop of `provision` (provisioner.py lines
899-903): clone each template id in input order, appending each truthy
(non-zero) returned id to the accumulator. -/
def cloneLoop (sdk : Sdk σ) (ts : List Nat) (folder_id : Nat) (project_id : String)
    (acc : List Nat) (s : σ) : Except PErr (List Nat) × σ :=
  match ts with
  | [] => (.ok acc, s)
  | t :: rest =>
    match clone_dashboard_if_missing sdk t folder_id project_id s with
    | (.error e, s1) => (.error e, s1)
    | (.ok did, s1) =>
      if did != 0 then cloneLoop sdk rest folder_id project_id (acc ++ [did]) s1
      else cloneLoop sdk rest folder_id project_id acc s1

/-- Result mapping of a successful `provision` run (provisioner.py lines
905-912). -/
structure ProvCore where
  projectId : String
  groupEmail : String
  groupId : Nat
  folderId : Nat
  dashboardIds : List Nat
  correlationId : String
deriving Repr, DecidableEq

/-- Embedding of `LookerProvisioner.provision` (provisioner.py lines
853-916): validation gate, then group, SAML mapping, folder, and the
dashboard-clone loop, strictly in that order.  The correlation identifier
(`uuid.uuid4()` in the source) is an externally supplied fresh token. -/
def provision (sdk : Sdk σ) (project_id group_email : String)
    (template_dashboard_ids : List Nat) (correlation_id : String) (s : σ) :
    Except PErr ProvCore × σ :=
  if project_id = "" ∨ group_email = "" then
    (.error (.validation "Missing project_id or group_email"), s)
  else
    match ensure_group sdk group_email s with
    | (.error e, s1) => (.error e, s1)
    | (.ok group_id, s1) =>
      match ensure_saml_group_mapping sdk group_id group_email s1 with
      | (.error e, s2) => (.error e, s2)
      | (.ok _, s2) =>
        match ensure_project_folder sdk project_id none s2 with
        | (.error e, s3) => (.error e, s3)
        | (.ok folder_id, s3) =>
          match cloneLoop sdk template_dashboard_ids folder_id project_id [] s3 with
          | (.error e, s4) => (.error e, s4)
          | (.ok cloned_ids, s4) =>
            (.ok ⟨project_id, group_email, group_id, folder_id, cloned_ids, correlation_id⟩, s4)

/-- Result mapping of `decommission_project` (provisioner.py lines
735-740). -/
structure DecomResult where
  projectId : String
  archived_folder : Bool
  deleted_dashboards : Nat
  deleted_schedules : Nat
deriving Repr, DecidableEq

/-- The dashboard-deletion loop of `decommission_project` (provisioner.py
lines 758-763): delete each dashboard with a truthy id, counting
successful deletions.  Errors are raw SDK errors, wrapped by the caller. -/
def deleteDashboardsLoop (sdk : Sdk σ) (ds : List DashObj) (count : Nat) (s : σ) :
    Except String Nat × σ :=
  match ds with
  | [] => (.ok count, s)
  | d :: rest =>
    match d.id with
    | some did =>
      if did != 0 then
        match sdk.delete_dashboard did s with
        | (.error e, s1) => (.error e, s1)
        | (.ok _, s1) => deleteDashboardsLoop sdk rest (count + 1) s1
      else deleteDashboardsLoop sdk rest count s
    | none => deleteDashboardsLoop sdk rest count s

/-- The inner schedule-deletion loop (provisioner.py lines 771-775). -/
def deleteSchedulesInner (sdk : Sdk σ) (plans : List PlanObj) (count : Nat) (s : σ) :
    Except String Nat × σ :=
  match plans with
  | [] => (.ok count, s)
  | p :: rest =>
    match p.id with
    | some pid =>
      if pid != 0 then
        match sdk.delete_scheduled_plan pid s with
        | (.error e, s1) => (.error e, s1)
        | (.ok _, s1) => deleteSchedulesInner sdk rest (count + 1) s1
      else deleteSchedulesInner sdk rest count s
    | none => deleteSchedulesInner sdk rest count s

/-- The schedule-deletion loop of `decommission_project` (provisioner.py
lines 766-775): for each dashboard of the captured list with a truthy id,
list its scheduled plans and delete each one with a truthy id. -/
def deleteSchedulesLoop (sdk : Sdk σ) (ds : List DashObj) (count : Nat) (s : σ) :
    Except String Nat × σ :=
  match ds with
  | [] => (.ok count, s)
  | d :: rest =>
    match d.id with
    | some did =>
      if did != 0 then
        match sdk.scheduled_plans_for_dashboard did s with
        | (.error e, s1) => (.error e, s1)
        | (.ok plans, s1) =>
          match deleteSchedulesInner sdk plans count s1 with
          | (.error e, s2) => (.error e, s2)
          | (.ok count1, s2) => deleteSchedulesLoop sdk rest count1 s2
      else deleteSchedulesLoop sdk rest count s
    | none => deleteSchedulesLoop sdk rest count s

/-- Embedding of `LookerProvisioner.decommission_project` (provisioner.py
lines 713-790).  The whole body runs in one `try`: any SDK failure is
re-raised as `ProvisioningError("decommission_project failed: ...")`.  An
absent project folder returns immediately with all counts zero.  The
dashboard list is captured once, before any deletion, and is the list the
schedule-deletion loop iterates. -/
def decommission_project (sdk : Sdk σ) (project_id : String)
    (archive_folder delete_dashboards delete_schedules : Bool) (s : σ) :
    Except PErr DecomResult × σ :=
  match sdk.search_folders ("Project: " ++ project_id) s with
  | (.error e, s1) => (.error (.provisioning ("decommission_project failed: " ++ e)), s1)
  | (.ok folders, s1) =>
    match folders with
    | [] => (.ok ⟨project_id, false, 0, 0⟩, s1)
    | f :: _ =>
      match sdk.search_dashboards_folder f.id s1 with
      | (.error e, s2) => (.error (.provisioning ("decommission_project failed: " ++ e)), s2)
      | (.ok dashboards, s2) =>
        match (if delete_dashboards then deleteDashboardsLoop sdk dashboards 0 s2
               else (.ok 0, s2)) with
        | (.error e, s3) => (.error (.provisioning ("decommission_project failed: " ++ e)), s3)
        | (.ok dd, s3) =>
          match (if delete_schedules then deleteSchedulesLoop sdk dashboards 0 s3
                 else (.ok 0, s3)) with
          | (.error e, s4) => (.error (.provisioning ("decommission_project failed: " ++ e)), s4)
          | (.ok ds, s4) =>
            if archive_folder then
              match sdk.update_folder f.id ("Archived: Project: " ++ project_id) s4 with
              | (.error e, s5) =>
                (.error (.provisioning ("decommission_project failed: " ++ e)), s5)
              | (.ok _, s5) => (.ok ⟨project_id, true, dd, ds⟩, s5)
            else (.ok ⟨project_id, false, dd, ds⟩, s4)

/-! ## Request handler (`src/iam_looker/handler.py` and `functions/main.py`) -/

/-- Python exceptions escaping the orchestrator into the handler:
`ValidationError`, `ProvisioningError`, or any other exception. -/
inductive PyExc where
  | validationErr (msg : String)
  | provisioningErr (msg : String)
  | otherErr (msg : String)
deriving Repr, DecidableEq

/-- JSON-like values appearing in handler responses. -/
inductive JVal where
  | str (s : String)
  | num (n : Nat)
  | arr (l : List Nat)
  | bool (b : Bool)
  | null
deriving Repr, DecidableEq

/-- The logical request mapping produced by transport decoding: the raw
dict from which the handler reads `projectId` and `groupEmail` with
`.get(key, "")`; the rest of the dict is consumed only by the payload
validator. -/
structure RawPayload where
  projectIdField : Option String
  groupEmailField : Option String
  body : List (String × String)
deriving Repr, DecidableEq

/-- The typed payload produced by `ProvisionPayload` validation
(models.py): the fields `handle_event` reads. -/
structure ProvisionPayloadM where
  projectId : String
  groupEmail : String
  templateDashboardIds : Option (List Nat)
deriving Repr, DecidableEq

deriving instance DecidableEq for Except

/-- An inbound event: either a direct payload dict, or a Pub/Sub envelope
holding a `data` field whose base64/JSON decoding (an external pure
function per the spec) either yields a dict or fails with a message. -/
inductive Event where
  | plain (payload : RawPayload)
  | pubsub (data : Except String RawPayload)
deriving Repr, DecidableEq

/-- Embedding of `_decode_pubsub` (handler.py lines 22-30): unwrap the
`data` envelope if present; a decode failure raises `ValidationError`. -/
def decode_pubsub : Event → Except String RawPayload
  | .plain p => .ok p
  | .pubsub (.ok p) => .ok p
  | .pubsub (.error e) => .error ("Failed to decode pubsub data: " ++ e)

/-- The `ProvisionResult` pydantic model (models.py lines 21-29). -/
structure PResultM where
  status : String
  projectId : String
  groupEmail : String
  groupId : Option Nat
  folderId : Option Nat
  dashboardIds : List Nat
  correlationId : Option String
  error : Option String
deriving Repr, DecidableEq

/-- Render an optional integer field as JSON. -/
def optNatJ : Option Nat → JVal
  | none => .null
  | some n => .num n

/-- Render an optional string field as JSON. -/
def optStrJ : Option String → JVal
  | none => .null
  | some m => .str m

/-- `ProvisionResult.model_dump()`: every field of the model appears as a
key of the response dict, absent values as null. -/
def model_dump (r : PResultM) : List (String × JVal) :=
  [("status", .str r.status), ("projectId", .str r.projectId),
   ("groupEmail", .str r.groupEmail), ("groupId", optNatJ r.groupId),
   ("folderId", optNatJ r.folderId), ("dashboardIds", .arr r.dashboardIds),
   ("correlationId", optStrJ r.correlationId), ("error", optStrJ r.error)]

/-- The template-id defaulting of handler.py line 39:
`payload.templateDashboardIds or settings.template_dashboard_ids` — Python
truthiness sends both `None` and the empty list to the defaults. -/
def pick_template_ids : Option (List Nat) → List Nat → List Nat
  | none, defaults => defaults
  | some [], defaults => defaults
  | some l, _ => l

/-- The exception-to-response mapping around the orchestrator call
(handler.py lines 42-51). -/
def post_provision (payload : ProvisionPayloadM) : Except PyExc ProvCore → PResultM
  | .ok core =>
    ⟨"ok", core.projectId, core.groupEmail, some core.groupId, some core.folderId,
      core.dashboardIds, some core.correlationId, none⟩
  | .error (.validationErr m) =>
    ⟨"validation_error", payload.projectId, payload.groupEmail, none, none, [], none, some m⟩
  | .error (.provisioningErr m) =>
    ⟨"provisioning_error", payload.projectId, payload.groupEmail, none, none, [], none, some m⟩
  | .error (.otherErr m) =>
    ⟨"unknown_error", payload.projectId, payload.groupEmail, none, none, [], none, some m⟩

/-- Embedding of `handle_event` (handler.py lines 33-51).  External
collaborators are injected: `validate` is the `ProvisionPayload`
constructor (pydantic validation), `defaults` is
`settings.template_dashboard_ids`, and `prov` is the module-level
provisioner (`None` when the SDK failed to initialise), abstracted to the
outcome of its `provision` call.  The outer `Except` is the Python
invocation itself: a `.error` value is an exception escaping
`handle_event` uncaught — which happens exactly when `_decode_pubsub`
raises, since that call is outside every `try` block. -/
def handle_event (validate : RawPayload → Except String ProvisionPayloadM)
    (defaults : List Nat)
    (prov : Option (String → String → List Nat → Except PyExc ProvCore))
    (event : Event) : Except PyExc (List (String × JVal)) :=
  match decode_pubsub event with
  | .error m => .error (.validationErr m)
  | .ok payload_dict =>
    match validate payload_dict with
    | .error e =>
      .ok (model_dump ⟨"validation_error", payload_dict.projectIdField.getD "",
        payload_dict.groupEmailField.getD "", none, none, [], none, some e⟩)
    | .ok payload =>
      let template_ids := pick_template_ids payload.templateDashboardIds defaults
      match prov with
      | none =>
        .ok (model_dump ⟨"sdk_unavailable", payload.projectId, payload.groupEmail,
          none, none, [], none, none⟩)
      | some f =>
        .ok (model_dump (post_provision payload (f payload.projectId payload.groupEmail
          template_ids)))

/-- The response-status taxonomy as §4.3 and §7 of the specification
describe it, written from the spec's words: validation failure maps to
`validation_error`, a missing client to `sdk_unavailable`, and the
orchestrator outcome to `ok` / `validation_error` / `provisioning_error` /
`unknown_error`. -/
def spec_status (validate : RawPayload → Except String ProvisionPayloadM)
    (defaults : List Nat)
    (prov : Option (String → String → List Nat → Except PyExc ProvCore))
    (payload_dict : RawPayload) : String :=
  match validate payload_dict with
  | .error _ => "validation_error"
  | .ok payload =>
    match prov with
    | none => "sdk_unavailable"
    | some f =>
      match f payload.projectId payload.groupEmail
          (pick_template_ids payload.templateDashboardIds defaults) with
      | .ok _ => "ok"
      | .error (.validationErr _) => "validation_error"
      | .error (.provisioningErr _) => "provisioning_error"
      | .error (.otherErr _) => "unknown_error"

/-- Embedding of the single-operation handler `add_user_to_group`
(functions/main.py lines 145-170): response construction only, with the
provisioner's availability and its `add_user_to_group` call outcome
injected. -/
def add_user_to_group_fn (available : Bool) (group_id user_id : Nat)
    (call : Except String Bool) : List (String × JVal) :=
  if available = false then [("status", .str "sdk_unavailable")]
  else
    match call with
    | .ok added =>
      [("status", .str "ok"), ("groupId", .num group_id), ("userId", .num user_id),
       ("added", .bool added)]
    | .error e => [("status", .str "error"), ("error", .str e)]

/-! ## A stateful model of the remote platform

A concrete `Sdk` instance in the style of the repository's own `MockSDK`
test fake (tests/test_provisioner.py, tests/test_provisioner_advanced.py),
with two refinements over that fake: created entities draw globally unique
identifiers from a single `nextId` counter (as the remote platform
guarantees), and every call is recorded in a log so that theorems can
speak about which remote calls an operation issued. -/

/-- One recorded remote call. -/
inductive CallEvent where
  | search_groups (name : String)
  | create_group (name : String)
  | search_folders (name : String)
  | create_folder (name : String)
  | dashboard_fetch (id : Nat)
  | search_dashboards_title (title : String)
  | dashboard_copy (templateId : Nat)
  | saml_config_read
  | update_saml_config
  | search_dashboards_folder (folderId : Option Nat)
  | delete_dashboard (id : Nat)
  | scheduled_plans_read (dashboardId : Nat)
  | delete_scheduled_plan (id : Nat)
  | update_folder (folderId : Option Nat)
deriving Repr, DecidableEq

/-- Read-only calls: searches and fetches that cannot change remote
entities. -/
def CallEvent.isRead : CallEvent → Bool
  | .search_groups _ => true
  | .search_folders _ => true
  | .dashboard_fetch _ => true
  | .search_dashboards_title _ => true
  | .saml_config_read => true
  | .search_dashboards_folder _ => true
  | .scheduled_plans_read _ => true
  | _ => false

/-- A group held by the remote platform. -/
structure FakeGroup where
  id : Nat
  name : String
deriving Repr, DecidableEq

/-- A folder held by the remote platform. -/
structure FakeFolder where
  id : Nat
  name : String
  parentId : Option String
deriving Repr, DecidableEq

/-- A dashboard held by the remote platform. -/
structure FakeDash where
  id : Nat
  title : String
  folderId : Option Nat
deriving Repr, DecidableEq

/-- A scheduled plan held by the remote platform. -/
structure FakePlan where
  id : Nat
  dashboardId : Nat
deriving Repr, DecidableEq

/-- The remote platform's state: entity lists, the SAML configuration's
group list, a fresh-id counter, and the call log. -/
structure FakeState where
  groups : List FakeGroup
  folders : List FakeFolder
  dashboards : List FakeDash
  saml : List SamlEntryObj
  plans : List FakePlan
  nextId : Nat
  log : List CallEvent
deriving Repr, DecidableEq

/-- View a stored group as the call-result object. -/
def FakeGroup.toObj (g : FakeGroup) : GroupObj := ⟨some g.id, some g.name⟩

/-- View a stored folder as the call-result object. -/
def FakeFolder.toObj (f : FakeFolder) : FolderObj := ⟨some f.id⟩

/-- View a stored dashboard as the call-result object. -/
def FakeDash.toObj (d : FakeDash) : DashObj := ⟨some d.id, some d.title⟩

/-- View a stored plan as the call-result object. -/
def FakePlan.toObj (p : FakePlan) : PlanObj := ⟨some p.id⟩

/-- The stateful model of the remote platform.  Searches filter by exact
match; creates append an entity under the fresh `nextId`; the dashboard
fetch falls back, like the repository's `MockSDK`, to a synthetic
`"Template {id}"` object when the id is unknown; the SAML update replaces
the stored group list with the list given. -/
def fakeSdk : Sdk FakeState where
  search_groups := fun name s =>
    (.ok ((s.groups.filter (fun g => g.name == name)).map FakeGroup.toObj),
      { s with log := s.log ++ [.search_groups name] })
  create_group := fun name s =>
    (.ok ⟨some s.nextId, some name⟩,
      { s with
        groups := s.groups ++ [⟨s.nextId, name⟩]
        nextId := s.nextId + 1
        log := s.log ++ [.create_group name] })
  search_folders := fun name s =>
    (.ok ((s.folders.filter (fun f => f.name == name)).map FakeFolder.toObj),
      { s with log := s.log ++ [.search_folders name] })
  create_folder := fun name parent s =>
    (.ok ⟨some s.nextId⟩,
      { s with
        folders := s.folders ++ [⟨s.nextId, name, parent⟩]
        nextId := s.nextId + 1
        log := s.log ++ [.create_folder name] })
  dashboard := fun did s =>
    (.ok (match s.dashboards.find? (fun d => d.id == did) with
      | some d => d.toObj
      | none => ⟨some did, some ("Template " ++ toString did)⟩),
      { s with log := s.log ++ [.dashboard_fetch did] })
  search_dashboards_title := fun title s =>
    (.ok ((s.dashboards.filter (fun d => d.title == title)).map FakeDash.toObj),
      { s with log := s.log ++ [.search_dashboards_title title] })
  dashboard_copy := fun tid name fid s =>
    (.ok ⟨some s.nextId, some name⟩,
      { s with
        dashboards := s.dashboards ++ [⟨s.nextId, name, some fid⟩]
        nextId := s.nextId + 1
        log := s.log ++ [.dashboard_copy tid] })
  saml_config := fun s =>
    (.ok ⟨some s.saml⟩, { s with log := s.log ++ [.saml_config_read] })
  update_saml_config := fun gs s =>
    (.ok (), { s with saml := gs, log := s.log ++ [.update_saml_config] })
  search_dashboards_folder := fun fid s =>
    (.ok ((s.dashboards.filter (fun d => d.folderId == fid)).map FakeDash.toObj),
      { s with log := s.log ++ [.search_dashboards_folder fid] })
  delete_dashboard := fun did s =>
    (.ok (), { s with
      dashboards := s.dashboards.filter (fun d => d.id != did)
      log := s.log ++ [.delete_dashboard did] })
  scheduled_plans_for_dashboard := fun did s =>
    (.ok ((s.plans.filter (fun p => p.dashboardId == did)).map FakePlan.toObj),
      { s with log := s.log ++ [.scheduled_plans_read did] })
  delete_scheduled_plan := fun pid s =>
    (.ok (), { s with
      plans := s.plans.filter (fun p => p.id != pid)
      log := s.log ++ [.delete_scheduled_plan pid] })
  update_folder := fun fid name s =>
    (.ok (), { s with
      folders := s.folders.map (fun f =>
        if fid == some f.id then { f with name := name } else f)
      log := s.log ++ [.update_folder fid] })

/-! Computation rules of the fake platform's calls, as equations. -/

theorem fakeSdk_search_groups (n : String) (s : FakeState) :
    fakeSdk.search_groups n s =
      (.ok ((s.groups.filter (fun g => g.name == n)).map FakeGroup.toObj),
        { s with log := s.log ++ [.search_groups n] }) := rfl

theorem fakeSdk_create_group (n : String) (s : FakeState) :
    fakeSdk.create_group n s =
      (.ok ⟨some s.nextId, some n⟩,
        { s with
          groups := s.groups ++ [⟨s.nextId, n⟩]
          nextId := s.nextId + 1
          log := s.log ++ [.create_group n] }) := rfl

theorem fakeSdk_search_folders (n : String) (s : FakeState) :
    fakeSdk.search_folders n s =
      (.ok ((s.folders.filter (fun f => f.name == n)).map FakeFolder.toObj),
        { s with log := s.log ++ [.search_folders n] }) := rfl

theorem fakeSdk_create_folder (n : String) (p : Option String) (s : FakeState) :
    fakeSdk.create_folder n p s =
      (.ok ⟨some s.nextId⟩,
        { s with
          folders := s.folders ++ [⟨s.nextId, n, p⟩]
          nextId := s.nextId + 1
          log := s.log ++ [.create_folder n] }) := rfl

theorem fakeSdk_dashboard (did : Nat) (s : FakeState) :
    fakeSdk.dashboard did s =
      (.ok (match s.dashboards.find? (fun d => d.id == did) with
        | some d => d.toObj
        | none => ⟨some did, some ("Template " ++ toString did)⟩),
        { s with log := s.log ++ [.dashboard_fetch did] }) := rfl

theorem fakeSdk_search_dashboards_title (title : String) (s : FakeState) :
    fakeSdk.search_dashboards_title title s =
      (.ok ((s.dashboards.filter (fun d => d.title == title)).map FakeDash.toObj),
        { s with log := s.log ++ [.search_dashboards_title title] }) := rfl

theorem fakeSdk_dashboard_copy (tid : Nat) (name : String) (fid : Nat) (s : FakeState) :
    fakeSdk.dashboard_copy tid name fid s =
      (.ok ⟨some s.nextId, some name⟩,
        { s with
          dashboards := s.dashboards ++ [⟨s.nextId, name, some fid⟩]
          nextId := s.nextId + 1
          log := s.log ++ [.dashboard_copy tid] }) := rfl

theorem fakeSdk_saml_config (s : FakeState) :
    fakeSdk.saml_config s =
      (.ok ⟨some s.saml⟩, { s with log := s.log ++ [.saml_config_read] }) := rfl

theorem fakeSdk_update_saml_config (gs : List SamlEntryObj) (s : FakeState) :
    fakeSdk.update_saml_config gs s =
      (.ok (), { s with saml := gs, log := s.log ++ [.update_saml_config] }) := rfl

theorem fakeSdk_search_dashboards_folder (fid : Option Nat) (s : FakeState) :
    fakeSdk.search_dashboards_folder fid s =
      (.ok ((s.dashboards.filter (fun d => d.folderId == fid)).map FakeDash.toObj),
        { s with log := s.log ++ [.search_dashboards_folder fid] }) := rfl

theorem fakeSdk_delete_dashboard (did : Nat) (s : FakeState) :
    fakeSdk.delete_dashboard did s =
      (.ok (), { s with
        dashboards := s.dashboards.filter (fun d => d.id != did)
        log := s.log ++ [.delete_dashboard did] }) := rfl

theorem fakeSdk_scheduled_plans_for_dashboard (did : Nat) (s : FakeState) :
    fakeSdk.scheduled_plans_for_dashboard did s =
      (.ok ((s.plans.filter (fun p => p.dashboardId == did)).map FakePlan.toObj),
        { s with log := s.log ++ [.scheduled_plans_read did] }) := rfl

theorem fakeSdk_delete_scheduled_plan (pid : Nat) (s : FakeState) :
    fakeSdk.delete_scheduled_plan pid s =
      (.ok (), { s with
        plans := s.plans.filter (fun p => p.id != pid)
        log := s.log ++ [.delete_scheduled_plan pid] }) := rfl

theorem fakeSdk_update_folder (fid : Option Nat) (name : String) (s : FakeState) :
    fakeSdk.update_folder fid name s =
      (.ok (), { s with
        folders := s.folders.map (fun f =>
          if fid == some f.id then { f with name := name } else f)
        log := s.log ++ [.update_folder fid] }) := rfl

/-! Pure observations of the remote state, used to phrase the behaviour of
the operations on `fakeSdk`. -/

/-- The id the group search would hand to `ensure_group`: first group with
the given name. -/
def groupAnswer (l : List FakeGroup) (name : String) : Option Nat :=
  (l.find? (fun g => g.name == name)).map FakeGroup.id

/-- The id the folder search would hand to `ensure_project_folder`. -/
def folderAnswer (l : List FakeFolder) (name : String) : Option Nat :=
  (l.find? (fun f => f.name == name)).map FakeFolder.id

/-- Whether the SAML group list already maps the given email. -/
def samlHas (l : List SamlEntryObj) (email : String) : Bool :=
  l.any (fun g => g.name == some email)

/-- The base title `clone_dashboard_if_missing` derives from fetching a
template against the fake platform. -/
def fetchTitle (l : List FakeDash) (t : Nat) : String :=
  match l.find? (fun d => d.id == t) with
  | some d => d.title
  | none => "Template " ++ toString t

/-- The full derived title of a clone for a given template and project. -/
def derivedTitle (l : List FakeDash) (t : Nat) (project_id : String) : String :=
  fetchTitle l t ++ " (project: " ++ project_id ++ ")"

/-- The id the dashboard title search would hand back: first dashboard
with the given title. -/
def dashAnswer (l : List FakeDash) (title : String) : Option Nat :=
  (l.find? (fun d => d.title == title)).map FakeDash.id

/-- The ids a run of the clone loop returns when every template's derived
title already has a dashboard (the all-reuse replay of a second
`provision` call). -/
def replayIds (l : List FakeDash) (project_id : String) : List Nat → List Nat → Option (List Nat)
  | [], acc => some acc
  | t :: rest, acc =>
    match dashAnswer l (derivedTitle l t project_id) with
    | some did => replayIds l project_id rest (if did != 0 then acc ++ [did] else acc)
    | none => none

/-! ## Theorems -/

/-- The copy phase never raises `ValidationError`. -/
theorem clone_copy_phase_not_validation (sdk : Sdk σ) (t fid : Nat) (title : String) (s : σ)
    (m : String) : (clone_copy_phase sdk t fid title s).1 ≠ Except.error (PErr.validation m) := by
  unfold clone_copy_phase
  repeat' split
  all_goals simp

/-- `ensure_group` never raises `ValidationError`. -/
theorem ensure_group_not_validation (sdk : Sdk σ) (e : String) (s : σ) (m : String) :
    (ensure_group sdk e s).1 ≠ Except.error (PErr.validation m) := by
  unfold ensure_group
  repeat' split
  all_goals simp

/-- `ensure_project_folder` never raises `ValidationError`. -/
theorem ensure_project_folder_not_validation (sdk : Sdk σ) (pid : String) (par : Option String)
    (s : σ) (m : String) :
    (ensure_project_folder sdk pid par s).1 ≠ Except.error (PErr.validation m) := by
  unfold ensure_project_folder
  repeat' split
  all_goals simp

/-- `clone_dashboard_if_missing` never raises `ValidationError`. -/
theorem clone_not_validation (sdk : Sdk σ) (t fid : Nat) (pid : String) (s : σ) (m : String) :
    (clone_dashboard_if_missing sdk t fid pid s).1 ≠ Except.error (PErr.validation m) := by
  unfold clone_dashboard_if_missing
  repeat' split
  all_goals first
    | exact clone_copy_phase_not_validation _ _ _ _ _ _
    | simp

/-- `ensure_saml_group_mapping` never raises `ValidationError`. -/
theorem ensure_saml_not_validation (sdk : Sdk σ) (gid : Nat) (e : String) (s : σ) (m : String) :
    (ensure_saml_group_mapping sdk gid e s).1 ≠ Except.error (PErr.validation m) := by
  unfold ensure_saml_group_mapping
  repeat' split
  all_goals simp

/-- The clone loop never raises `ValidationError`. -/
theorem cloneLoop_not_validation (sdk : Sdk σ) (ts : List Nat) :
    ∀ (fid : Nat) (pid : String) (acc : List Nat) (s : σ) (m : String),
      (cloneLoop sdk ts fid pid acc s).1 ≠ Except.error (PErr.validation m) := by
  induction ts with
  | nil => intro fid pid acc s m; simp [cloneLoop]
  | cons t rest ih =>
    intro fid pid acc s m
    rcases h : clone_dashboard_if_missing sdk t fid pid s with ⟨r, s1⟩
    cases r with
    | error e =>
      have hne := clone_not_validation sdk t fid pid s m
      rw [h] at hne
      simpa [cloneLoop, h] using hne
    | ok did =>
      simp only [cloneLoop, h]
      split
      · exact ih fid pid (acc ++ [did]) s1 m
      · exact ih fid pid acc s1 m

/-- Claim C6: `provision` with an empty `project_id` or an empty
`group_email` raises `ValidationError` with the remote state untouched and
no remote call issued (the result does not depend on the SDK at all); with
both non-empty, `provision` itself never raises `ValidationError`. -/
theorem provision_validation_gate (sdk : Sdk σ) (pid email : String) (ts : List Nat)
    (corr : String) (s : σ) :
    ((pid = "" ∨ email = "") →
      provision sdk pid email ts corr s =
        (Except.error (PErr.validation "Missing project_id or group_email"), s)) ∧
    (pid ≠ "" → email ≠ "" → ∀ m : String,
      (provision sdk pid email ts corr s).1 ≠ Except.error (PErr.validation m)) := by
  constructor
  · intro h
    simp [provision, h]
  · intro hp he m
    have hcond : ¬ (pid = "" ∨ email = "") := by
      rintro (h | h)
      · exact hp h
      · exact he h
    unfold provision
    rw [if_neg hcond]
    split
    next e s1 heq =>
      have hne := ensure_group_not_validation sdk email s m
      rw [heq] at hne
      simpa using hne
    next gid s1 heq =>
      split
      next e s2 heq2 =>
        have hne := ensure_saml_not_validation sdk gid email s1 m
        rw [heq2] at hne
        simpa using hne
      next u s2 heq2 =>
        split
        next e s3 heq3 =>
          have hne := ensure_project_folder_not_validation sdk pid none s2 m
          rw [heq3] at hne
          simpa using hne
        next fid s3 heq3 =>
          split
          next e s4 heq4 =>
            have hne := cloneLoop_not_validation sdk ts fid pid [] s3 m
            rw [heq4] at hne
            simpa using hne
          next ids s4 heq4 => simp

/-- A stub SDK whose every call fails: the base for concrete adversarial
platforms used in witnesses and counterexamples. -/
def stubSdk : Sdk Unit where
  search_groups := fun _ _ => (.error "stub", ())
  create_group := fun _ _ => (.error "stub", ())
  search_folders := fun _ _ => (.error "stub", ())
  create_folder := fun _ _ _ => (.error "stub", ())
  dashboard := fun _ _ => (.error "stub", ())
  search_dashboards_title := fun _ _ => (.error "stub", ())
  dashboard_copy := fun _ _ _ _ => (.error "stub", ())
  saml_config := fun _ => (.error "stub", ())
  update_saml_config := fun _ _ => (.error "stub", ())
  search_dashboards_folder := fun _ _ => (.error "stub", ())
  delete_dashboard := fun _ _ => (.error "stub", ())
  scheduled_plans_for_dashboard := fun _ _ => (.error "stub", ())
  delete_scheduled_plan := fun _ _ => (.error "stub", ())
  update_folder := fun _ _ _ => (.error "stub", ())

/-- Witness for C6 at concrete inputs: an empty project id is rejected
with the state untouched, and with non-empty inputs no `ValidationError`
arises even when every remote call fails. -/
theorem provision_validation_gate_witness :
    provision stubSdk "" "analysts@company.com" [] "corr" () =
      (Except.error (PErr.validation "Missing project_id or group_email"), ()) ∧
    (provision stubSdk "demo-project" "analysts@company.com" [] "corr" ()).1 ≠
      Except.error (PErr.validation "boom") :=
  ⟨(provision_validation_gate stubSdk "" "analysts@company.com" [] "corr" ()).1 (Or.inl rfl),
   (provision_validation_gate stubSdk "demo-project" "analysts@company.com" [] "corr" ()).2
     (by decide) (by decide) "boom"⟩

/-- Claim C7: in each find-or-create operation, a create call that
succeeds but returns an entity without an identifier raises
`ProvisioningError`; it is never treated as success. -/
theorem create_without_id_rejected (sdk : Sdk σ) :
    (∀ (e : String) (s s1 s2 : σ) (nm : Option String),
      sdk.search_groups e s = (.ok [], s1) →
      sdk.create_group e s1 = (.ok ⟨none, nm⟩, s2) →
      ensure_group sdk e s =
        (.error (.provisioning ("Created group " ++ e ++ " but no ID returned")), s2)) ∧
    (∀ (pid : String) (par : Option String) (s s1 s2 : σ),
      sdk.search_folders ("Project: " ++ pid) s = (.ok [], s1) →
      sdk.create_folder ("Project: " ++ pid) (truthyParent par) s1 = (.ok ⟨none⟩, s2) →
      ensure_project_folder sdk pid par s =
        (.error (.provisioning ("Created folder Project: " ++ pid ++ " but no ID returned")),
          s2)) ∧
    (∀ (t fid : Nat) (pid : String) (template : DashObj) (s s1 s2 s3 : σ) (nm : Option String),
      sdk.dashboard t s = (.ok template, s1) →
      sdk.search_dashboards_title (desired_title_of template t pid) s1 = (.ok [], s2) →
      sdk.dashboard_copy t (desired_title_of template t pid) fid s2 = (.ok ⟨none, nm⟩, s3) →
      clone_dashboard_if_missing sdk t fid pid s =
        (.error (.provisioning ("Cloned dashboard " ++ desired_title_of template t pid ++
          " but no ID returned")), s3)) := by
  refine ⟨?_, ?_, ?_⟩
  · intro e s s1 s2 nm h1 h2
    simp [ensure_group, h1, h2]
  · intro pid par s s1 s2 h1 h2
    simp [ensure_project_folder, h1, h2]
  · intro t fid pid template s s1 s2 s3 nm h1 h2 h3
    simp [clone_dashboard_if_missing, clone_copy_phase, h1, h2, h3]

/-- An SDK whose searches find nothing and whose creates succeed but
return objects without identifiers. -/
def noIdSdk : Sdk Unit :=
  { stubSdk with
    search_groups := fun _ _ => (.ok [], ())
    create_group := fun nm _ => (.ok ⟨none, some nm⟩, ())
    search_folders := fun _ _ => (.ok [], ())
    create_folder := fun _ _ _ => (.ok ⟨none⟩, ())
    dashboard := fun t _ => (.ok ⟨some t, some "T"⟩, ())
    search_dashboards_title := fun _ _ => (.ok [], ())
    dashboard_copy := fun _ _ _ _ => (.ok ⟨none, none⟩, ()) }

/-- Witness for C7 at concrete inputs: an SDK whose creates answer without
identifiers makes all three operations fail. -/
theorem create_without_id_rejected_witness :
    ensure_group noIdSdk "analysts@company.com" () =
      (Except.error
        (PErr.provisioning "Created group analysts@company.com but no ID returned"), ()) ∧
    ensure_project_folder noIdSdk "demo-project" none () =
      (Except.error
        (PErr.provisioning "Created folder Project: demo-project but no ID returned"), ()) ∧
    clone_dashboard_if_missing noIdSdk 5 9 "demo-project" () =
      (Except.error
        (PErr.provisioning
          "Cloned dashboard T (project: demo-project) but no ID returned"), ()) := by
  refine ⟨?_, ?_, ?_⟩
  · exact (create_without_id_rejected noIdSdk).1 "analysts@company.com" () () ()
      (some "analysts@company.com") rfl rfl
  · exact (create_without_id_rejected noIdSdk).2.1 "demo-project" none () () () rfl rfl
  · exact ((create_without_id_rejected noIdSdk).2.2 5 9 "demo-project"
      ⟨some 5, some "T"⟩ () () () () none rfl rfl rfl)

/-- A remote platform whose group search fails twice with a transient
error and succeeds from the third attempt on; the state counts the
attempts made so far. -/
def flakySdk : Sdk Nat :=
  { search_groups := fun _ n =>
      if n < 2 then (.error "transient failure", n + 1)
      else (.ok [⟨some 7, some "analysts@company.com"⟩], n + 1)
    create_group := fun _ n => (.error "stub", n)
    search_folders := fun _ n => (.error "stub", n)
    create_folder := fun _ _ n => (.error "stub", n)
    dashboard := fun _ n => (.error "stub", n)
    search_dashboards_title := fun _ n => (.error "stub", n)
    dashboard_copy := fun _ _ _ n => (.error "stub", n)
    saml_config := fun n => (.error "stub", n)
    update_saml_config := fun _ n => (.error "stub", n)
    search_dashboards_folder := fun _ n => (.error "stub", n)
    delete_dashboard := fun _ n => (.error "stub", n)
    scheduled_plans_for_dashboard := fun _ n => (.error "stub", n)
    delete_scheduled_plan := fun _ n => (.error "stub", n)
    update_folder := fun _ _ n => (.error "stub", n) }

/-- Counterexample to C2: against a platform whose group search fails on
the first two attempts and succeeds on the third, `ensure_group` fails
after a single attempt (the attempt counter ends at 1), although the
claimed 3-attempt retry would have returned success.  No operation in the
code retries. -/
theorem retry_claim_counterexample :
    ensure_group flakySdk "analysts@company.com" 0 =
      (Except.error (PErr.provisioning "search_groups failed: transient failure"), 1) ∧
    flakySdk.search_groups "analysts@company.com" 1 = (.error "transient failure", 2) ∧
    flakySdk.search_groups "analysts@company.com" 2 =
      (.ok [⟨some 7, some "analysts@company.com"⟩], 3) :=
  ⟨rfl, rfl, rfl⟩

/-- Amended C2: the idempotent resource operations apply no retry at all.
Each remote call is attempted exactly once and its failure propagates
immediately, wrapped as `ProvisioningError` — even when a later attempt
would succeed (shown for the first remote call of `ensure_group` and of
`clone_dashboard_if_missing`, the operations the claim cites). -/
theorem no_retry_single_attempt (sdk : Sdk σ) :
    (∀ (e : String) (s : σ) (m : String) (s' : σ),
      sdk.search_groups e s = (.error m, s') →
      ensure_group sdk e s =
        (.error (.provisioning ("search_groups failed: " ++ m)), s')) ∧
    (∀ (t fid : Nat) (pid : String) (s : σ) (m : String) (s' : σ),
      sdk.dashboard t s = (.error m, s') →
      clone_dashboard_if_missing sdk t fid pid s =
        (.error (.provisioning ("dashboard fetch failed: " ++ m)), s')) := by
  constructor
  · intro e s m s' h
    simp [ensure_group, h]
  · intro t fid pid s m s' h
    simp [clone_dashboard_if_missing, h]

/-- Witness for the amended C2 at concrete inputs. -/
theorem no_retry_single_attempt_witness :
    ensure_group flakySdk "analysts@company.com" 0 =
      (Except.error (PErr.provisioning "search_groups failed: transient failure"), 1) ∧
    clone_dashboard_if_missing stubSdk 3 4 "demo-project" () =
      (Except.error (PErr.provisioning "dashboard fetch failed: stub"), ()) :=
  ⟨(no_retry_single_attempt flakySdk).1 "analysts@company.com" 0 "transient failure" 1 rfl,
   (no_retry_single_attempt stubSdk).2 3 4 "demo-project" () "stub" () rfl⟩

/-- A platform where the template fetch and the copy succeed but the
dashboard title search fails. -/
def swallowSdk : Sdk Unit :=
  { stubSdk with
    dashboard := fun t _ => (.ok ⟨some t, some "T"⟩, ())
    search_dashboards_title := fun _ _ => (.error "search down", ())
    dashboard_copy := fun _ nm _ _ => (.ok ⟨some 42, some nm⟩, ()) }

/-- Counterexample to C3: the dashboard title search inside
`clone_dashboard_if_missing` fails, yet the operation returns success
(after issuing a copy) instead of re-raising the failure as
`ProvisioningError` — the search failure is silently treated as an empty
search result (provisioner.py lines 309-312). -/
theorem title_search_swallowed_counterexample :
    swallowSdk.search_dashboards_title "T (project: demo-project)" () =
      (.error "search down", ()) ∧
    clone_dashboard_if_missing swallowSdk 5 9 "demo-project" () = (Except.ok 42, ()) :=
  ⟨rfl, rfl⟩

/-- Amended C3: every remote call failure inside the idempotent resource
operations is re-raised as `ProvisioningError` carrying the failing call's
name and the underlying message — except the dashboard title search of
`clone_dashboard_if_missing`, whose failure is swallowed and treated as an
empty search result, so the operation proceeds to the copy phase. -/
theorem remote_failure_wrapping (sdk : Sdk σ) :
    (∀ (e : String) (s : σ) (m : String) (s' : σ),
      sdk.search_groups e s = (.error m, s') →
      ensure_group sdk e s =
        (.error (.provisioning ("search_groups failed: " ++ m)), s')) ∧
    (∀ (e : String) (s s1 : σ) (m : String) (s2 : σ),
      sdk.search_groups e s = (.ok [], s1) →
      sdk.create_group e s1 = (.error m, s2) →
      ensure_group sdk e s =
        (.error (.provisioning ("create_group failed: " ++ m)), s2)) ∧
    (∀ (pid : String) (par : Option String) (s : σ) (m : String) (s' : σ),
      sdk.search_folders ("Project: " ++ pid) s = (.error m, s') →
      ensure_project_folder sdk pid par s =
        (.error (.provisioning ("search_folders failed: " ++ m)), s')) ∧
    (∀ (pid : String) (par : Option String) (s s1 : σ) (m : String) (s2 : σ),
      sdk.search_folders ("Project: " ++ pid) s = (.ok [], s1) →
      sdk.create_folder ("Project: " ++ pid) (truthyParent par) s1 = (.error m, s2) →
      ensure_project_folder sdk pid par s =
        (.error (.provisioning ("create_folder failed: " ++ m)), s2)) ∧
    (∀ (t fid : Nat) (pid : String) (s : σ) (m : String) (s' : σ),
      sdk.dashboard t s = (.error m, s') →
      clone_dashboard_if_missing sdk t fid pid s =
        (.error (.provisioning ("dashboard fetch failed: " ++ m)), s')) ∧
    (∀ (t fid : Nat) (pid : String) (template : DashObj) (s s1 s2 : σ) (m : String) (s3 : σ),
      sdk.dashboard t s = (.ok template, s1) →
      sdk.search_dashboards_title (desired_title_of template t pid) s1 = (.ok [], s2) →
      sdk.dashboard_copy t (desired_title_of template t pid) fid s2 = (.error m, s3) →
      clone_dashboard_if_missing sdk t fid pid s =
        (.error (.provisioning ("dashboard_copy failed: " ++ m)), s3)) ∧
    (∀ (gid : Nat) (e : String) (s : σ) (m : String) (s' : σ),
      sdk.saml_config s = (.error m, s') →
      ensure_saml_group_mapping sdk gid e s =
        (.error (.provisioning ("saml_config failed: " ++ m)), s')) ∧
    (∀ (gid : Nat) (e : String) (s : σ) (cfg : SamlConfigObj) (s1 : σ) (m : String) (s2 : σ),
      sdk.saml_config s = (.ok cfg, s1) →
      (cfg.groups.getD []).any (fun g => g.name == some e) = false →
      sdk.update_saml_config (cfg.groups.getD [] ++ [⟨some e, some gid⟩]) s1 = (.error m, s2) →
      ensure_saml_group_mapping sdk gid e s =
        (.error (.provisioning ("update_saml_config failed: " ++ m)), s2)) ∧
    (∀ (t fid : Nat) (pid : String) (template : DashObj) (s s1 : σ) (m : String) (s2 : σ),
      sdk.dashboard t s = (.ok template, s1) →
      sdk.search_dashboards_title (desired_title_of template t pid) s1 = (.error m, s2) →
      clone_dashboard_if_missing sdk t fid pid s =
        clone_copy_phase sdk t fid (desired_title_of template t pid) s2) := by
  refine ⟨?_, ?_, ?_, ?_, ?_, ?_, ?_, ?_, ?_⟩
  · intro e s m s' h
    simp [ensure_group, h]
  · intro e s s1 m s2 h1 h2
    simp [ensure_group, h1, h2]
  · intro pid par s m s' h
    simp [ensure_project_folder, h]
  · intro pid par s s1 m s2 h1 h2
    simp [ensure_project_folder, h1, h2]
  · intro t fid pid s m s' h
    simp [clone_dashboard_if_missing, h]
  · intro t fid pid template s s1 s2 m s3 h1 h2 h3
    simp [clone_dashboard_if_missing, clone_copy_phase, h1, h2, h3]
  · intro gid e s m s' h
    simp [ensure_saml_group_mapping, h]
  · intro gid e s cfg s1 m s2 h1 hmem h2
    simp [ensure_saml_group_mapping, h1, hmem, h2]
  · intro t fid pid template s s1 m s2 h1 h2
    simp [clone_dashboard_if_missing, h1, h2]

/-- A platform where every search succeeds (empty), every read succeeds,
and every write fails. -/
def createFailSdk : Sdk Unit :=
  { stubSdk with
    search_groups := fun _ _ => (.ok [], ())
    create_group := fun _ _ => (.error "boom", ())
    search_folders := fun _ _ => (.ok [], ())
    create_folder := fun _ _ _ => (.error "boom", ())
    dashboard := fun t _ => (.ok ⟨some t, some "T"⟩, ())
    search_dashboards_title := fun _ _ => (.ok [], ())
    dashboard_copy := fun _ _ _ _ => (.error "boom", ())
    saml_config := fun _ => (.ok ⟨some []⟩, ())
    update_saml_config := fun _ _ => (.error "boom", ()) }

/-- Witness for the amended C3 at concrete inputs. -/
theorem remote_failure_wrapping_witness :
    ensure_group stubSdk "a@b.com" () =
      (Except.error (PErr.provisioning "search_groups failed: stub"), ()) ∧
    ensure_group createFailSdk "a@b.com" () =
      (Except.error (PErr.provisioning "create_group failed: boom"), ()) ∧
    ensure_project_folder stubSdk "demo-project" none () =
      (Except.error (PErr.provisioning "search_folders failed: stub"), ()) ∧
    ensure_project_folder createFailSdk "demo-project" none () =
      (Except.error (PErr.provisioning "create_folder failed: boom"), ()) ∧
    clone_dashboard_if_missing stubSdk 5 9 "demo-project" () =
      (Except.error (PErr.provisioning "dashboard fetch failed: stub"), ()) ∧
    clone_dashboard_if_missing createFailSdk 5 9 "demo-project" () =
      (Except.error (PErr.provisioning "dashboard_copy failed: boom"), ()) ∧
    ensure_saml_group_mapping stubSdk 7 "a@b.com" () =
      (Except.error (PErr.provisioning "saml_config failed: stub"), ()) ∧
    ensure_saml_group_mapping createFailSdk 7 "a@b.com" () =
      (Except.error (PErr.provisioning "update_saml_config failed: boom"), ()) ∧
    clone_dashboard_if_missing swallowSdk 5 9 "demo-project" () =
      clone_copy_phase swallowSdk 5 9 "T (project: demo-project)" () := by
  refine ⟨?_, ?_, ?_, ?_, ?_, ?_, ?_, ?_, ?_⟩
  · exact (remote_failure_wrapping stubSdk).1 "a@b.com" () "stub" () rfl
  · exact (remote_failure_wrapping createFailSdk).2.1 "a@b.com" () () "boom" () rfl rfl
  · exact (remote_failure_wrapping stubSdk).2.2.1 "demo-project" none () "stub" () rfl
  · exact (remote_failure_wrapping createFailSdk).2.2.2.1 "demo-project" none () () "boom" ()
      rfl rfl
  · exact (remote_failure_wrapping stubSdk).2.2.2.2.1 5 9 "demo-project" () "stub" () rfl
  · exact (remote_failure_wrapping createFailSdk).2.2.2.2.2.1 5 9 "demo-project"
      ⟨some 5, some "T"⟩ () () () "boom" () rfl rfl rfl
  · exact (remote_failure_wrapping stubSdk).2.2.2.2.2.2.1 7 "a@b.com" () "stub" () rfl
  · exact (remote_failure_wrapping createFailSdk).2.2.2.2.2.2.2.1 7 "a@b.com" () ⟨some []⟩ ()
      "boom" () rfl rfl rfl
  · exact (remote_failure_wrapping swallowSdk).2.2.2.2.2.2.2.2 5 9 "demo-project"
      ⟨some 5, some "T"⟩ () () "search down" () rfl rfl

/-- Composition of the clone loop: a successfully processed prefix hands
its accumulated ids and state to the rest of the list. -/
theorem cloneLoop_append_ok (sdk : Sdk σ) (l1 : List Nat) :
    ∀ (l2 : List Nat) (fid : Nat) (pid : String) (acc : List Nat) (s : σ)
      (ids : List Nat) (s' : σ),
      cloneLoop sdk l1 fid pid acc s = (.ok ids, s') →
      cloneLoop sdk (l1 ++ l2) fid pid acc s = cloneLoop sdk l2 fid pid ids s' := by
  induction l1 with
  | nil =>
    intro l2 fid pid acc s ids s' h
    simp only [cloneLoop] at h
    obtain ⟨h1, h2⟩ := Prod.mk.injEq .. ▸ h
    simp at h
    obtain ⟨ha, hb⟩ := h
    subst ha hb
    simp
  | cons t rest ih =>
    intro l2 fid pid acc s ids s' h
    rcases hc : clone_dashboard_if_missing sdk t fid pid s with ⟨r, s1⟩
    cases r with
    | error e =>
      simp only [cloneLoop, hc] at h
      simp at h
    | ok did =>
      simp only [cloneLoop, hc] at h
      simp only [List.cons_append, cloneLoop, hc]
      by_cases hd : (did != 0) = true
      · simp only [hd, if_true] at h ⊢
        exact ih l2 fid pid (acc ++ [did]) s1 ids s' h
      · simp only [hd, if_false] at h ⊢
        exact ih l2 fid pid acc s1 ids s' h

/-- Claim C5: `provision` runs group, SAML mapping, folder, then the
clones in input order, each step's output feeding the next; when the clone
of template `t` fails after prefix `ts1` succeeded, the whole run aborts
with that `ProvisioningError`, the remaining templates `ts2` are never
processed, and the final remote state is exactly the state after the
failing clone — the completed steps' effects stay in place and (since the
equality holds for every SDK) no compensating call is issued. -/
theorem provision_order_fail_forward (sdk : Sdk σ) (pid email : String)
    (ts1 : List Nat) (t : Nat) (ts2 : List Nat) (corr : String) (s : σ)
    (gid : Nat) (s1 s2 : σ) (fid : Nat) (s3 : σ) (ids : List Nat) (s4 : σ)
    (m : String) (s5 : σ)
    (hp : pid ≠ "") (he : email ≠ "")
    (h1 : ensure_group sdk email s = (.ok gid, s1))
    (h2 : ensure_saml_group_mapping sdk gid email s1 = (.ok (), s2))
    (h3 : ensure_project_folder sdk pid none s2 = (.ok fid, s3))
    (h4 : cloneLoop sdk ts1 fid pid [] s3 = (.ok ids, s4))
    (h5 : clone_dashboard_if_missing sdk t fid pid s4 = (.error (.provisioning m), s5)) :
    provision sdk pid email (ts1 ++ t :: ts2) corr s =
      (.error (.provisioning m), s5) := by
  have hcond : ¬ (pid = "" ∨ email = "") := by
    rintro (h | h)
    · exact hp h
    · exact he h
  have hloop : cloneLoop sdk (ts1 ++ t :: ts2) fid pid [] s3 =
      (.error (.provisioning m), s5) := by
    rw [cloneLoop_append_ok sdk ts1 (t :: ts2) fid pid [] s3 ids s4 h4]
    simp only [cloneLoop, h5]
  simp [provision, hcond, h1, h2, h3, hloop]

/-- A platform where the group, the SAML mapping and the folder already
exist, and the dashboard template fetch fails. -/
def failCloneSdk : Sdk Unit :=
  { stubSdk with
    search_groups := fun _ _ => (.ok [⟨some 1, some "analysts@company.com"⟩], ())
    saml_config := fun _ => (.ok ⟨some [⟨some "analysts@company.com", some 1⟩]⟩, ())
    search_folders := fun _ _ => (.ok [⟨some 2⟩], ())
    dashboard := fun _ _ => (.error "down", ()) }

/-- Witness for C5 at concrete inputs. -/
theorem provision_order_fail_forward_witness :
    provision failCloneSdk "demo-project" "analysts@company.com" [7] "corr" () =
      (Except.error (PErr.provisioning "dashboard fetch failed: down"), ()) :=
  provision_order_fail_forward failCloneSdk "demo-project" "analysts@company.com"
    [] 7 [] "corr" () 1 () () 2 () [] () "dashboard fetch failed: down" ()
    (by decide) (by decide) rfl rfl rfl rfl rfl

/-- A payload validator that rejects everything. -/
def alwaysInvalid : RawPayload → Except String ProvisionPayloadM :=
  fun _ => .error "Invalid projectId format"

/-- Counterexample to C4: an event whose Pub/Sub `data` envelope fails to
decode makes `handle_event` raise `ValidationError` out of the invocation
instead of returning a `validation_error` response: the `_decode_pubsub`
call sits outside every `try` block (handler.py line 34), so this
invocation terminates abnormally. -/
theorem decode_failure_raises_counterexample :
    handle_event alwaysInvalid [] none (.pubsub (.error "Invalid base64")) =
      .error (.validationErr "Failed to decode pubsub data: Invalid base64") :=
  rfl

/-- Amended C4: for every inbound event whose transport envelope decodes
(in particular every event without a `data` envelope), `handle_event`
returns a structured response and never raises, with the status taxonomy
exactly as claimed: payload validation failure and orchestrator
`ValidationError` map to `validation_error`, a missing client to
`sdk_unavailable`, `ProvisioningError` to `provisioning_error`, any other
exception to `unknown_error`, success to `ok`.  A transport decode
failure, however, escapes as a raised `ValidationError`. -/
theorem handle_event_taxonomy (validate : RawPayload → Except String ProvisionPayloadM)
    (defaults : List Nat)
    (prov : Option (String → String → List Nat → Except PyExc ProvCore))
    (event : Event) (pd : RawPayload)
    (h : decode_pubsub event = .ok pd) :
    ∃ r, handle_event validate defaults prov event = .ok r ∧
      List.lookup "status" r = some (.str (spec_status validate defaults prov pd)) := by
  unfold handle_event spec_status
  rw [h]
  simp only []
  cases hv : validate pd with
  | error e => exact ⟨_, rfl, rfl⟩
  | ok payload =>
    simp only []
    cases prov with
    | none => exact ⟨_, rfl, rfl⟩
    | some f =>
      simp only []
      cases ho : f payload.projectId payload.groupEmail
          (pick_template_ids payload.templateDashboardIds defaults) with
      | ok core => exact ⟨_, rfl, rfl⟩
      | error ex => cases ex <;> exact ⟨_, rfl, rfl⟩

/-- Witness for the amended C4 at concrete inputs: a decodable event with
a failing validator yields a `validation_error` response. -/
theorem handle_event_taxonomy_witness :
    decode_pubsub (.plain ⟨some "demo-project", some "a@b.com", []⟩) =
      .ok ⟨some "demo-project", some "a@b.com", []⟩ ∧
    ∃ r, handle_event alwaysInvalid [] none (.plain ⟨some "demo-project", some "a@b.com", []⟩) =
        .ok r ∧
      List.lookup "status" r = some (.str "validation_error") :=
  ⟨rfl, handle_event_taxonomy alwaysInvalid [] none
    (.plain ⟨some "demo-project", some "a@b.com", []⟩)
    ⟨some "demo-project", some "a@b.com", []⟩ rfl⟩

/-- Claim C10: when the validated payload's `templateDashboardIds` is
omitted (`None`) or an explicitly supplied empty list, `handle_event`
invokes the orchestrator with the environment-configured defaults
(`settings.template_dashboard_ids`); since this holds for every
orchestrator function `f`, the empty list cannot suppress the default
clones. -/
theorem empty_template_ids_use_defaults
    (validate : RawPayload → Except String ProvisionPayloadM) (defaults : List Nat)
    (f : String → String → List Nat → Except PyExc ProvCore)
    (event : Event) (pd : RawPayload) (payload : ProvisionPayloadM)
    (hd : decode_pubsub event = .ok pd)
    (hv : validate pd = .ok payload)
    (ht : payload.templateDashboardIds = none ∨ payload.templateDashboardIds = some []) :
    handle_event validate defaults (some f) event =
      .ok (model_dump (post_provision payload
        (f payload.projectId payload.groupEmail defaults))) := by
  unfold handle_event
  rw [hd]
  simp only []
  rw [hv]
  simp only []
  have hp : pick_template_ids payload.templateDashboardIds defaults = defaults := by
    rcases ht with h | h <;> rw [h] <;> rfl
  rw [hp]

/-- Witness for C10 at concrete inputs: an explicitly empty
`templateDashboardIds` still invokes the orchestrator with the defaults
`[101, 102]`. -/
theorem empty_template_ids_use_defaults_witness :
    handle_event (fun _ => .ok ⟨"demo-project", "a@b.com", some []⟩) [101, 102]
      (some (fun pid ge tids => .ok ⟨pid, ge, 1, 2, tids, "c"⟩))
      (.plain ⟨some "demo-project", some "a@b.com", []⟩) =
      .ok (model_dump ⟨"ok", "demo-project", "a@b.com", some 1, some 2, [101, 102],
        some "c", none⟩) :=
  empty_template_ids_use_defaults (fun _ => .ok ⟨"demo-project", "a@b.com", some []⟩)
    [101, 102] (fun pid ge tids => .ok ⟨pid, ge, 1, 2, tids, "c"⟩)
    (.plain ⟨some "demo-project", some "a@b.com", []⟩)
    ⟨some "demo-project", some "a@b.com", []⟩ ⟨"demo-project", "a@b.com", some []⟩
    rfl rfl (Or.inr rfl)

/-- The fields `model_dump` always emits. -/
theorem model_dump_fields (r : PResultM) :
    List.lookup "status" (model_dump r) = some (.str r.status) ∧
    List.lookup "projectId" (model_dump r) = some (.str r.projectId) ∧
    List.lookup "groupEmail" (model_dump r) = some (.str r.groupEmail) ∧
    List.lookup "error" (model_dump r) = some (optStrJ r.error) :=
  ⟨rfl, rfl, rfl, rfl⟩

/-- Counterexample to C8: the single-operation handler
`add_user_to_group` (functions/main.py lines 145-170) produces a response
with one of the defined statuses (`ok`) that contains neither a
`projectId` nor a `groupEmail` field; its `sdk_unavailable` response also
carries neither. -/
theorem response_shape_counterexample :
    List.lookup "status" (add_user_to_group_fn true 1 2 (.ok true)) = some (.str "ok") ∧
    List.lookup "projectId" (add_user_to_group_fn true 1 2 (.ok true)) = none ∧
    List.lookup "groupEmail" (add_user_to_group_fn true 1 2 (.ok true)) = none ∧
    List.lookup "projectId" (add_user_to_group_fn false 1 2 (.ok true)) = none :=
  ⟨rfl, rfl, rfl, rfl⟩

/-- Amended C8: every response the orchestrated handler `handle_event`
returns (all of which go through `ProvisionResult.model_dump`) includes
`projectId` and `groupEmail` fields, and its `error` field is populated
(a string rather than null) exactly when the status is neither `ok` nor
`sdk_unavailable`.  The single-operation handlers of functions/main.py do
not share this shape. -/
theorem handle_event_response_shape
    (validate : RawPayload → Except String ProvisionPayloadM) (defaults : List Nat)
    (prov : Option (String → String → List Nat → Except PyExc ProvCore))
    (event : Event) (r : List (String × JVal))
    (h : handle_event validate defaults prov event = .ok r) :
    (List.lookup "projectId" r).isSome ∧ (List.lookup "groupEmail" r).isSome ∧
    ((∃ em, List.lookup "error" r = some (.str em)) ↔
      (List.lookup "status" r ≠ some (.str "ok") ∧
       List.lookup "status" r ≠ some (.str "sdk_unavailable"))) := by
  unfold handle_event at h
  cases hd : decode_pubsub event with
  | error m => rw [hd] at h; exact absurd h (by simp)
  | ok pd =>
    rw [hd] at h
    simp only [] at h
    cases hv : validate pd with
    | error e =>
      simp only [hv] at h
      cases h
      refine ⟨rfl, rfl, iff_of_true ⟨e, rfl⟩ ⟨?_, ?_⟩⟩
      · exact (by decide :
          some (JVal.str "validation_error") ≠ some (JVal.str "ok"))
      · exact (by decide :
          some (JVal.str "validation_error") ≠ some (JVal.str "sdk_unavailable"))
    | ok payload =>
      simp only [hv] at h
      cases prov with
      | none =>
        simp only [] at h
        cases h
        refine ⟨rfl, rfl, iff_of_false ?_ ?_⟩
        · rintro ⟨em, hem⟩
          have hem2 : some JVal.null = some (JVal.str em) := hem
          exact absurd hem2 (by simp)
        · rintro ⟨h1, h2⟩
          exact h2 rfl
      | some f =>
        simp only [] at h
        cases ho : f payload.projectId payload.groupEmail
            (pick_template_ids payload.templateDashboardIds defaults) with
        | ok core =>
          simp only [ho] at h
          cases h
          refine ⟨rfl, rfl, iff_of_false ?_ ?_⟩
          · rintro ⟨em, hem⟩
            have hem2 : some JVal.null = some (JVal.str em) := hem
            exact absurd hem2 (by simp)
          · rintro ⟨h1, h2⟩
            exact h1 rfl
        | error ex =>
          cases ex with
          | validationErr m =>
            simp only [ho] at h
            cases h
            refine ⟨rfl, rfl, iff_of_true ⟨m, rfl⟩ ⟨?_, ?_⟩⟩
            · exact (by decide :
                some (JVal.str "validation_error") ≠ some (JVal.str "ok"))
            · exact (by decide :
                some (JVal.str "validation_error") ≠ some (JVal.str "sdk_unavailable"))
          | provisioningErr m =>
            simp only [ho] at h
            cases h
            refine ⟨rfl, rfl, iff_of_true ⟨m, rfl⟩ ⟨?_, ?_⟩⟩
            · exact (by decide :
                some (JVal.str "provisioning_error") ≠ some (JVal.str "ok"))
            · exact (by decide :
                some (JVal.str "provisioning_error") ≠ some (JVal.str "sdk_unavailable"))
          | otherErr m =>
            simp only [ho] at h
            cases h
            refine ⟨rfl, rfl, iff_of_true ⟨m, rfl⟩ ⟨?_, ?_⟩⟩
            · exact (by decide :
                some (JVal.str "unknown_error") ≠ some (JVal.str "ok"))
            · exact (by decide :
                some (JVal.str "unknown_error") ≠ some (JVal.str "sdk_unavailable"))

/-- Witness for the amended C8 at concrete inputs. -/
theorem handle_event_response_shape_witness :
    (List.lookup "projectId"
      (model_dump ⟨"validation_error", "demo-project", "a@b.com", none, none, [], none,
        some "Invalid projectId format"⟩)).isSome ∧
    (List.lookup "groupEmail"
      (model_dump ⟨"validation_error", "demo-project", "a@b.com", none, none, [], none,
        some "Invalid projectId format"⟩)).isSome ∧
    ((∃ em, List.lookup "error"
        (model_dump ⟨"validation_error", "demo-project", "a@b.com", none, none, [], none,
          some "Invalid projectId format"⟩) = some (.str em)) ↔
      (List.lookup "status"
        (model_dump ⟨"validation_error", "demo-project", "a@b.com", none, none, [], none,
          some "Invalid projectId format"⟩) ≠ some (.str "ok") ∧
       List.lookup "status"
        (model_dump ⟨"validation_error", "demo-project", "a@b.com", none, none, [], none,
          some "Invalid projectId format"⟩) ≠ some (.str "sdk_unavailable"))) :=
  handle_event_response_shape
    (fun _ => .error "Invalid projectId format") [] none
    (.plain ⟨some "demo-project", some "a@b.com", []⟩) _ rfl

/-- On the fake platform the dashboard-deletion loop always succeeds and
touches neither the scheduled plans nor the folders. -/
theorem deleteDashboardsLoop_fake_ok (ds : List DashObj) :
    ∀ (c : Nat) (s : FakeState), ∃ c' s',
      deleteDashboardsLoop fakeSdk ds c s = (.ok c', s') ∧
      s'.plans = s.plans ∧ s'.folders = s.folders := by
  induction ds with
  | nil => intro c s; exact ⟨c, s, rfl, rfl, rfl⟩
  | cons d rest ih =>
    intro c s
    cases hp : d.id with
    | none =>
      simp only [deleteDashboardsLoop, hp]
      exact ih c s
    | some did =>
      by_cases hz : (did != 0) = true
      · simp only [deleteDashboardsLoop, hp, hz, if_true, fakeSdk]
        obtain ⟨c', s', h1, h2, h3⟩ := ih (c + 1)
          { s with
            dashboards := s.dashboards.filter (fun q => q.id != did)
            log := s.log ++ [.delete_dashboard did] }
        exact ⟨c', s', h1, h2, h3⟩
      · simp only [deleteDashboardsLoop, hp, hz, if_false]
        exact ih c s

/-- On the fake platform the inner schedule-deletion loop run from two
states with equal plan lists succeeds with the same count and keeps the
plan lists equal. -/
theorem deleteSchedulesInner_fake_congr (ps : List PlanObj) :
    ∀ (c : Nat) (s t : FakeState), s.plans = t.plans → ∃ c' s' t',
      deleteSchedulesInner fakeSdk ps c s = (.ok c', s') ∧
      deleteSchedulesInner fakeSdk ps c t = (.ok c', t') ∧
      s'.plans = t'.plans ∧ s'.folders = s.folders ∧ t'.folders = t.folders := by
  induction ps with
  | nil => intro c s t h; exact ⟨c, s, t, rfl, rfl, h, rfl, rfl⟩
  | cons p rest ih =>
    intro c s t h
    cases hp : p.id with
    | none =>
      simp only [deleteSchedulesInner, hp]
      exact ih c s t h
    | some pid =>
      by_cases hz : (pid != 0) = true
      · simp only [deleteSchedulesInner, hp, hz, if_true, fakeSdk]
        exact ih (c + 1) _ _ (by simp; rw [h])
      · simp only [deleteSchedulesInner, hp, hz, if_false]
        exact ih c s t h

/-- On the fake platform the schedule-deletion loop run over the same
dashboard list from two states with equal plan lists succeeds with the
same count: the count reads only the scheduled plans, never the (possibly
already deleted) dashboards. -/
theorem deleteSchedulesLoop_fake_congr (ds : List DashObj) :
    ∀ (c : Nat) (s t : FakeState), s.plans = t.plans → ∃ c' s' t',
      deleteSchedulesLoop fakeSdk ds c s = (.ok c', s') ∧
      deleteSchedulesLoop fakeSdk ds c t = (.ok c', t') ∧
      s'.plans = t'.plans ∧ s'.folders = s.folders ∧ t'.folders = t.folders := by
  induction ds with
  | nil => intro c s t h; exact ⟨c, s, t, rfl, rfl, h, rfl, rfl⟩
  | cons d rest ih =>
    intro c s t h
    cases hp : d.id with
    | none =>
      simp only [deleteSchedulesLoop, hp]
      exact ih c s t h
    | some did =>
      by_cases hz : (did != 0) = true
      · simp only [deleteSchedulesLoop, hp, hz, if_true,
          fakeSdk_scheduled_plans_for_dashboard]
        have hps : (s.plans.filter (fun q => q.dashboardId == did)).map FakePlan.toObj =
            (t.plans.filter (fun q => q.dashboardId == did)).map FakePlan.toObj := by rw [h]
        rw [hps]
        obtain ⟨c1, s2, t2, hs2, ht2, hpl, hsf, htf⟩ :=
          deleteSchedulesInner_fake_congr
            ((t.plans.filter (fun q => q.dashboardId == did)).map FakePlan.toObj) c
            { s with log := s.log ++ [.scheduled_plans_read did] }
            { t with log := t.log ++ [.scheduled_plans_read did] } h
        rw [hs2, ht2]
        obtain ⟨c', s', t', h1, h2, h3, h4, h5⟩ := ih c1 s2 t2 hpl
        exact ⟨c', s', t', h1, h2, h3, by rw [h4, hsf], by rw [h5, htf]⟩
      · simp only [deleteSchedulesLoop, hp, hz, if_false]
        exact ih c s t h

/-- Claim C9: when the remote folder search for `"Project: {project_id}"`
finds nothing, `decommission_project` returns all-zero counts with
`archived_folder = false` without raising, and the final remote state is
exactly the post-search state (for every SDK), so no delete or rename call
is issued.  And when both `deleteDashboards` and `deleteSchedules` are
set, the schedule deletion iterates the dashboard list captured before any
dashboard deletion: on the stateful fake, a run with both flags deletes
exactly as many schedules as a run that deletes no dashboards at all. -/
theorem decommission_noop_and_captured_list :
    (∀ {σ : Type} (sdk : Sdk σ) (pid : String) (a dd ds : Bool) (s s' : σ),
      sdk.search_folders ("Project: " ++ pid) s = (.ok [], s') →
      decommission_project sdk pid a dd ds s = (.ok ⟨pid, false, 0, 0⟩, s')) ∧
    (∀ (pid : String) (a : Bool) (s : FakeState), ∃ r1 s1 r2 s2,
      decommission_project fakeSdk pid a true true s = (.ok r1, s1) ∧
      decommission_project fakeSdk pid a false true s = (.ok r2, s2) ∧
      r1.deleted_schedules = r2.deleted_schedules) := by
  constructor
  · intro σ sdk pid a dd ds s s' h
    simp [decommission_project, h]
  · intro pid a s
    cases hf : s.folders.filter (fun f => f.name == ("Project: " ++ pid)) with
    | nil =>
      simp only [decommission_project, fakeSdk_search_folders, hf, List.map_nil]
      exact ⟨_, _, _, _, rfl, rfl, rfl⟩
    | cons f fs =>
      simp only [decommission_project, fakeSdk_search_folders, hf, List.map_cons,
        FakeFolder.toObj, fakeSdk_search_dashboards_folder]
      obtain ⟨c1, s3, hd1, hpl1, hfol1⟩ :=
        deleteDashboardsLoop_fake_ok
          ((s.dashboards.filter (fun d => d.folderId == some f.id)).map FakeDash.toObj) 0
          { s with log := (s.log ++ [.search_folders ("Project: " ++ pid)]) ++
              [.search_dashboards_folder (some f.id)] }
      obtain ⟨c2, s4, t4, hs4, ht4, hpl, hf4s, hf4t⟩ :=
        deleteSchedulesLoop_fake_congr
          ((s.dashboards.filter (fun d => d.folderId == some f.id)).map FakeDash.toObj) 0
          s3
          { s with log := (s.log ++ [.search_folders ("Project: " ++ pid)]) ++
              [.search_dashboards_folder (some f.id)] }
          hpl1
      simp only [if_true, Bool.false_eq_true, if_false]
      rw [hd1]
      simp only [if_true]
      rw [hs4, ht4]
      cases a with
      | true => exact ⟨_, _, _, _, rfl, rfl, rfl⟩
      | false => exact ⟨_, _, _, _, rfl, rfl, rfl⟩

/-- Witness for C9 at concrete inputs: decommissioning a never-provisioned
project on an empty fake platform is a no-op success, and the two-flag
versus schedules-only runs agree on the schedule count. -/
theorem decommission_noop_and_captured_list_witness :
    decommission_project fakeSdk "nonexistent-project" true false false
        ⟨[], [], [], [], [], 0, []⟩ =
      (.ok ⟨"nonexistent-project", false, 0, 0⟩,
        ⟨[], [], [], [], [], 0, [.search_folders "Project: nonexistent-project"]⟩) ∧
    (∃ r1 s1 r2 s2,
      decommission_project fakeSdk "demo-project" true true true
          ⟨[], [⟨2, "Project: demo-project", none⟩], [⟨3, "D (project: demo-project)", some 2⟩],
            [], [⟨4, 3⟩], 5, []⟩ = (.ok r1, s1) ∧
      decommission_project fakeSdk "demo-project" true false true
          ⟨[], [⟨2, "Project: demo-project", none⟩], [⟨3, "D (project: demo-project)", some 2⟩],
            [], [⟨4, 3⟩], 5, []⟩ = (.ok r2, s2) ∧
      r1.deleted_schedules = r2.deleted_schedules) :=
  ⟨decommission_noop_and_captured_list.1 fakeSdk "nonexistent-project" true false false
      ⟨[], [], [], [], [], 0, []⟩ _ rfl,
   decommission_noop_and_captured_list.2 "demo-project" true
      ⟨[], [⟨2, "Project: demo-project", none⟩], [⟨3, "D (project: demo-project)", some 2⟩],
        [], [⟨4, 3⟩], 5, []⟩⟩

/-! ## Provision idempotency on the fake platform -/

theorem find?_append_of_some {α : Type} (p : α → Bool) (l1 l2 : List α) (a : α)
    (h : l1.find? p = some a) : (l1 ++ l2).find? p = some a := by
  rw [List.find?_append, h]; rfl

theorem find?_append_of_none {α : Type} (p : α → Bool) (l1 l2 : List α)
    (h : l1.find? p = none) : (l1 ++ l2).find? p = l2.find? p := by
  rw [List.find?_append, h]; rfl

/-- Fetching a template that exists in the prefix is unaffected by
appended dashboards. -/
theorem fetchTitle_append (B ext : List FakeDash) (t : Nat)
    (h : (B.find? (fun d => d.id == t)).isSome = true) :
    fetchTitle (B ++ ext) t = fetchTitle B t := by
  rcases ho : B.find? (fun d => d.id == t) with _ | d
  · rw [ho] at h; simp at h
  · unfold fetchTitle
    rw [find?_append_of_some _ _ _ _ ho, ho]

/-- The derived clone title of a prefix-resident template is unaffected by
appended dashboards. -/
theorem derivedTitle_append (B ext : List FakeDash) (t : Nat) (pid : String)
    (h : (B.find? (fun d => d.id == t)).isSome = true) :
    derivedTitle (B ++ ext) t pid = derivedTitle B t pid := by
  unfold derivedTitle
  rw [fetchTitle_append B ext t h]

/-- A positive title-search answer is unaffected by appended dashboards. -/
theorem dashAnswer_append_some (B ext : List FakeDash) (ttl : String) (did : Nat)
    (h : dashAnswer B ttl = some did) : dashAnswer (B ++ ext) ttl = some did := by
  unfold dashAnswer at h ⊢
  rcases ho : B.find? (fun d => d.title == ttl) with _ | d
  · rw [ho] at h; simp at h
  · rw [ho] at h
    rw [find?_append_of_some _ _ _ _ ho]
    exact h

/-- A dashboard appended behind a title-free prefix becomes the
title-search answer, whatever is appended after it. -/
theorem dashAnswer_insert (B more : List FakeDash) (d : FakeDash) (ttl : String)
    (hnone : dashAnswer B ttl = none) (ht : d.title = ttl) :
    dashAnswer ((B ++ [d]) ++ more) ttl = some d.id := by
  have hf : B.find? (fun q => q.title == ttl) = none := by
    rcases ho : B.find? (fun q => q.title == ttl) with _ | q
    · exact ho
    · unfold dashAnswer at hnone; rw [ho] at hnone; simp at hnone
  unfold dashAnswer
  rw [find?_append_of_some]
  · rfl
  · rw [find?_append_of_none _ _ _ hf]
    simp [List.find?, ht]

/-- A group appended behind a name-free prefix becomes the group-search
answer. -/
theorem groupAnswer_append (B : List FakeGroup) (n : Nat) (e : String)
    (h : groupAnswer B e = none) : groupAnswer (B ++ [⟨n, e⟩]) e = some n := by
  have hf : B.find? (fun g => g.name == e) = none := by
    rcases ho : B.find? (fun g => g.name == e) with _ | g
    · exact ho
    · unfold groupAnswer at h; rw [ho] at h; simp at h
  unfold groupAnswer
  rw [find?_append_of_none _ _ _ hf]
  simp [List.find?]

/-- A folder appended behind a name-free prefix becomes the folder-search
answer. -/
theorem folderAnswer_append (B : List FakeFolder) (n : Nat) (nm : String) (par : Option String)
    (h : folderAnswer B nm = none) : folderAnswer (B ++ [⟨n, nm, par⟩]) nm = some n := by
  have hf : B.find? (fun f => f.name == nm) = none := by
    rcases ho : B.find? (fun f => f.name == nm) with _ | f
    · exact ho
    · unfold folderAnswer at h; rw [ho] at h; simp at h
  unfold folderAnswer
  rw [find?_append_of_none _ _ _ hf]
  simp [List.find?]

/-- Appending the new SAML entry makes the membership test succeed. -/
theorem samlHas_append (l : List SamlEntryObj) (e : String) (gid : Nat) :
    samlHas (l ++ [⟨some e, some gid⟩]) e = true := by
  simp [samlHas]

/-- Behaviour of `ensure_group` on the fake when a group with the email
exists: its id is returned, only the search is issued, nothing changes. -/
theorem ensure_group_fake_reuse (e : String) (s : FakeState) (gid : Nat)
    (h : groupAnswer s.groups e = some gid) :
    ensure_group fakeSdk e s = (.ok gid, { s with log := s.log ++ [.search_groups e] }) := by
  unfold ensure_group
  rw [fakeSdk_search_groups]
  cases hfl : s.groups.filter (fun g => g.name == e) with
  | nil =>
    exfalso
    have hfind : s.groups.find? (fun g => g.name == e) = none := by
      rw [← List.filter_head?, hfl]; rfl
    unfold groupAnswer at h
    rw [hfind] at h
    simp at h
  | cons g rest =>
    have hfind : s.groups.find? (fun g => g.name == e) = some g := by
      rw [← List.filter_head?, hfl]; rfl
    have hgid : g.id = gid := by
      unfold groupAnswer at h
      rw [hfind] at h
      simpa using h
    simp [FakeGroup.toObj, hgid]

/-- Behaviour of `ensure_group` on the fake when no group with the email
exists: one is created under the fresh id. -/
theorem ensure_group_fake_create (e : String) (s : FakeState)
    (h : groupAnswer s.groups e = none) :
    ensure_group fakeSdk e s = (.ok s.nextId,
      { s with
        groups := s.groups ++ [⟨s.nextId, e⟩]
        nextId := s.nextId + 1
        log := s.log ++ [.search_groups e] ++ [.create_group e] }) := by
  unfold ensure_group
  rw [fakeSdk_search_groups]
  cases hfl : s.groups.filter (fun g => g.name == e) with
  | cons g rest =>
    exfalso
    have hfind : s.groups.find? (fun g => g.name == e) = some g := by
      rw [← List.filter_head?, hfl]; rfl
    unfold groupAnswer at h
    rw [hfind] at h
    simp at h
  | nil =>
    rfl

/-- Behaviour of `ensure_saml_group_mapping` on the fake when the email is
already mapped: only the configuration read is issued, nothing changes. -/
theorem ensure_saml_fake_reuse (gid : Nat) (e : String) (s : FakeState)
    (h : samlHas s.saml e = true) :
    ensure_saml_group_mapping fakeSdk gid e s =
      (.ok (), { s with log := s.log ++ [.saml_config_read] }) := by
  unfold ensure_saml_group_mapping
  rw [fakeSdk_saml_config]
  unfold samlHas at h
  simp [h]

/-- Behaviour of `ensure_saml_group_mapping` on the fake when the email is
not mapped: the entry is appended and written back. -/
theorem ensure_saml_fake_add (gid : Nat) (e : String) (s : FakeState)
    (h : samlHas s.saml e = false) :
    ensure_saml_group_mapping fakeSdk gid e s =
      (.ok (), { s with
        saml := s.saml ++ [⟨some e, some gid⟩]
        log := s.log ++ [.saml_config_read] ++ [.update_saml_config] }) := by
  unfold ensure_saml_group_mapping
  rw [fakeSdk_saml_config]
  unfold samlHas at h
  simp only [Option.getD_some, h, Bool.false_eq_true, if_false, fakeSdk_update_saml_config]

/-- Behaviour of `ensure_project_folder` on the fake when the project
folder exists. -/
theorem ensure_folder_fake_reuse (pid : String) (s : FakeState) (fid : Nat)
    (h : folderAnswer s.folders ("Project: " ++ pid) = some fid) :
    ensure_project_folder fakeSdk pid none s =
      (.ok fid, { s with log := s.log ++ [.search_folders ("Project: " ++ pid)] }) := by
  unfold ensure_project_folder
  rw [fakeSdk_search_folders]
  cases hfl : s.folders.filter (fun f => f.name == ("Project: " ++ pid)) with
  | nil =>
    exfalso
    have hfind : s.folders.find? (fun f => f.name == ("Project: " ++ pid)) = none := by
      rw [← List.filter_head?, hfl]; rfl
    unfold folderAnswer at h
    rw [hfind] at h
    simp at h
  | cons f rest =>
    have hfind : s.folders.find? (fun f => f.name == ("Project: " ++ pid)) = some f := by
      rw [← List.filter_head?, hfl]; rfl
    have hfid : f.id = fid := by
      unfold folderAnswer at h
      rw [hfind] at h
      simpa using h
    simp [FakeFolder.toObj, hfid]

/-- Behaviour of `ensure_project_folder` on the fake when the project
folder is missing: it is created under the fresh id. -/
theorem ensure_folder_fake_create (pid : String) (s : FakeState)
    (h : folderAnswer s.folders ("Project: " ++ pid) = none) :
    ensure_project_folder fakeSdk pid none s =
      (.ok s.nextId,
        { s with
          folders := s.folders ++ [⟨s.nextId, "Project: " ++ pid, none⟩]
          nextId := s.nextId + 1
          log := s.log ++ [.search_folders ("Project: " ++ pid)] ++
            [.create_folder ("Project: " ++ pid)] }) := by
  unfold ensure_project_folder
  rw [fakeSdk_search_folders]
  cases hfl : s.folders.filter (fun f => f.name == ("Project: " ++ pid)) with
  | cons f rest =>
    exfalso
    have hfind : s.folders.find? (fun f => f.name == ("Project: " ++ pid)) = some f := by
      rw [← List.filter_head?, hfl]; rfl
    unfold folderAnswer at h
    rw [hfind] at h
    simp at h
  | nil =>
    rfl

/-- The title derived by `clone_dashboard_if_missing` from the fake
platform's fetch result is `derivedTitle`. -/
theorem desired_title_fake (t : Nat) (pid : String) (l : List FakeDash) :
    desired_title_of (match l.find? (fun d => d.id == t) with
      | some d => d.toObj
      | none => ⟨some t, some ("Template " ++ toString t)⟩) t pid =
    derivedTitle l t pid := by
  unfold desired_title_of derivedTitle fetchTitle
  cases l.find? (fun d => d.id == t) <;> simp [FakeDash.toObj]

/-- Full behaviour of `clone_dashboard_if_missing` on the fake platform:
the answer of the title search over the current dashboards decides between
reuse (state unchanged, two reads logged) and a copy under the fresh id. -/
theorem clone_fake_run (t fid : Nat) (pid : String) (s : FakeState) :
    clone_dashboard_if_missing fakeSdk t fid pid s =
      (match dashAnswer s.dashboards (derivedTitle s.dashboards t pid) with
       | some did => (.ok did,
           { s with log := s.log ++ [.dashboard_fetch t] ++
             [.search_dashboards_title (derivedTitle s.dashboards t pid)] })
       | none => (.ok s.nextId,
           { s with
             dashboards :=
               s.dashboards ++ [⟨s.nextId, derivedTitle s.dashboards t pid, some fid⟩]
             nextId := s.nextId + 1
             log := s.log ++ [.dashboard_fetch t] ++
               [.search_dashboards_title (derivedTitle s.dashboards t pid)] ++
               [.dashboard_copy t] })) := by
  unfold clone_dashboard_if_missing
  rw [fakeSdk_dashboard]
  have hdt := desired_title_fake t pid s.dashboards
  rcases hfd : s.dashboards.find? (fun d => d.id == t) with _ | d
  · rw [hfd] at hdt ⊢
    simp only []
    rw [hdt, fakeSdk_search_dashboards_title]
    cases hfl : s.dashboards.filter (fun q => q.title == derivedTitle s.dashboards t pid) with
    | nil =>
      have hda : dashAnswer s.dashboards (derivedTitle s.dashboards t pid) = none := by
        unfold dashAnswer
        rw [← List.filter_head?, hfl]
        rfl
      rw [hda]
      rfl
    | cons q rest =>
      have hda : dashAnswer s.dashboards (derivedTitle s.dashboards t pid) = some q.id := by
        unfold dashAnswer
        rw [← List.filter_head?, hfl]
        rfl
      rw [hda]
      rfl
  · rw [hfd] at hdt ⊢
    simp only []
    rw [hdt, fakeSdk_search_dashboards_title]
    cases hfl : s.dashboards.filter (fun q => q.title == derivedTitle s.dashboards t pid) with
    | nil =>
      have hda : dashAnswer s.dashboards (derivedTitle s.dashboards t pid) = none := by
        unfold dashAnswer
        rw [← List.filter_head?, hfl]
        rfl
      rw [hda]
      rfl
    | cons q rest =>
      have hda : dashAnswer s.dashboards (derivedTitle s.dashboards t pid) = some q.id := by
        unfold dashAnswer
        rw [← List.filter_head?, hfl]
        rfl
      rw [hda]
      rfl

/-- The clone loop on the fake when every template's derived title already
has a dashboard (`replayIds` succeeds): all clones reuse, the remote
entities are untouched, and only read events are logged. -/
theorem cloneLoop_fake_replay (fid : Nat) (pid : String) :
    ∀ (ts : List Nat) (acc ids : List Nat) (s : FakeState),
      replayIds s.dashboards pid ts acc = some ids →
      ∃ s' delta, cloneLoop fakeSdk ts fid pid acc s = (.ok ids, s') ∧
        s'.groups = s.groups ∧ s'.folders = s.folders ∧ s'.saml = s.saml ∧
        s'.dashboards = s.dashboards ∧
        s'.log = s.log ++ delta ∧ (∀ ev ∈ delta, ev.isRead = true) := by
  intro ts
  induction ts with
  | nil =>
    intro acc ids s h
    unfold replayIds at h
    injection h with h
    subst h
    exact ⟨s, [], rfl, rfl, rfl, rfl, rfl, by simp, by simp⟩
  | cons t rest ih =>
    intro acc ids s h
    unfold replayIds at h
    cases hda : dashAnswer s.dashboards (derivedTitle s.dashboards t pid) with
    | none => rw [hda] at h; exact absurd h (by simp)
    | some did =>
      rw [hda] at h
      have hclone := clone_fake_run t fid pid s
      rw [hda] at hclone
      obtain ⟨s', delta, hlp, hg, hf, hsm, hdash, hlog, hread⟩ :=
        ih (if did != 0 then acc ++ [did] else acc) ids
          { s with log := s.log ++ [.dashboard_fetch t] ++
            [.search_dashboards_title (derivedTitle s.dashboards t pid)] } h
      refine ⟨s', [.dashboard_fetch t,
        .search_dashboards_title (derivedTitle s.dashboards t pid)] ++ delta,
        ?_, hg, hf, hsm, hdash, ?_, ?_⟩
      · simp only [cloneLoop, hclone]
        by_cases hz : (did != 0) = true
        · rw [if_pos hz]
          rw [if_pos hz] at hlp
          exact hlp
        · rw [if_neg hz]
          rw [if_neg hz] at hlp
          exact hlp
      · rw [hlog]
        simp [List.append_assoc]
      · intro ev hev
        rcases List.mem_append.mp hev with hev | hev
        · simp only [List.mem_cons, List.not_mem_nil, or_false] at hev
          rcases hev with rfl | rfl <;> rfl
        · exact hread ev hev

/-- The clone loop of the first `provision` call on the fake: when every
template id is resident in the base prefix `B` of the dashboard list, the
loop succeeds, only appends dashboards, leaves groups, folders and the
SAML list untouched, and afterwards `replayIds` reproduces exactly the ids
it returned. -/
theorem cloneLoop_fake_first (B : List FakeDash) (fid : Nat) (pid : String) :
    ∀ (ts : List Nat) (acc : List Nat) (s : FakeState) (ext : List FakeDash),
      s.dashboards = B ++ ext →
      (∀ t ∈ ts, (B.find? (fun d => d.id == t)).isSome = true) →
      ∃ ids s' news,
        cloneLoop fakeSdk ts fid pid acc s = (.ok ids, s') ∧
        s'.dashboards = s.dashboards ++ news ∧
        s'.groups = s.groups ∧ s'.folders = s.folders ∧ s'.saml = s.saml ∧
        replayIds s'.dashboards pid ts acc = some ids := by
  intro ts
  induction ts with
  | nil =>
    intro acc s ext hB htpl
    exact ⟨acc, s, [], rfl, by simp, rfl, rfl, rfl, rfl⟩
  | cons t rest ih =>
    intro acc s ext hB htpl
    have htpl_t : (B.find? (fun d => d.id == t)).isSome = true := htpl t (by simp)
    have htpl_rest : ∀ u ∈ rest, (B.find? (fun d => d.id == u)).isSome = true :=
      fun u hu => htpl u (by simp [hu])
    have hdtB : derivedTitle s.dashboards t pid = derivedTitle B t pid := by
      rw [hB]
      exact derivedTitle_append B ext t pid htpl_t
    have hclone := clone_fake_run t fid pid s
    cases hda : dashAnswer s.dashboards (derivedTitle s.dashboards t pid) with
    | some did =>
      rw [hda] at hclone
      obtain ⟨ids, s', news, hlp, hdash, hg, hf, hsm, hreplay⟩ :=
        ih (if did != 0 then acc ++ [did] else acc)
          { s with log := s.log ++ [.dashboard_fetch t] ++
            [.search_dashboards_title (derivedTitle s.dashboards t pid)] }
          ext hB htpl_rest
      refine ⟨ids, s', news, ?_, hdash, hg, hf, hsm, ?_⟩
      · simp only [cloneLoop, hclone]
        by_cases hz : (did != 0) = true
        · rw [if_pos hz]
          rw [if_pos hz] at hlp
          exact hlp
        · rw [if_neg hz]
          rw [if_neg hz] at hlp
          exact hlp
      · have hs'B : s'.dashboards = B ++ (ext ++ news) := by
          rw [hdash]
          show s.dashboards ++ news = B ++ (ext ++ news)
          rw [hB, List.append_assoc]
        have hdt' : derivedTitle s'.dashboards t pid = derivedTitle B t pid := by
          rw [hs'B]
          exact derivedTitle_append B (ext ++ news) t pid htpl_t
        have hda' : dashAnswer s'.dashboards (derivedTitle B t pid) = some did := by
          rw [hdtB] at hda
          have := dashAnswer_append_some s.dashboards news (derivedTitle B t pid) did hda
          rw [← hdash] at this
          exact this
        unfold replayIds
        rw [hdt', hda']
        exact hreplay
    | none =>
      rw [hda] at hclone
      obtain ⟨ids, s', news, hlp, hdash, hg, hf, hsm, hreplay⟩ :=
        ih (if s.nextId != 0 then acc ++ [s.nextId] else acc)
          { s with
            dashboards :=
              s.dashboards ++ [⟨s.nextId, derivedTitle s.dashboards t pid, some fid⟩]
            nextId := s.nextId + 1
            log := s.log ++ [.dashboard_fetch t] ++
              [.search_dashboards_title (derivedTitle s.dashboards t pid)] ++
              [.dashboard_copy t] }
          (ext ++ [⟨s.nextId, derivedTitle s.dashboards t pid, some fid⟩])
          (by
            show s.dashboards ++ [⟨s.nextId, derivedTitle s.dashboards t pid, some fid⟩] =
              B ++ (ext ++ [⟨s.nextId, derivedTitle s.dashboards t pid, some fid⟩])
            rw [hB, List.append_assoc])
          htpl_rest
      refine ⟨ids, s', [⟨s.nextId, derivedTitle s.dashboards t pid, some fid⟩] ++ news,
        ?_, ?_, hg, hf, hsm, ?_⟩
      · simp only [cloneLoop, hclone]
        by_cases hz : (s.nextId != 0) = true
        · rw [if_pos hz]
          rw [if_pos hz] at hlp
          exact hlp
        · rw [if_neg hz]
          rw [if_neg hz] at hlp
          exact hlp
      · rw [hdash]
        show (s.dashboards ++ [⟨s.nextId, derivedTitle s.dashboards t pid, some fid⟩]) ++
            news = s.dashboards ++
            ([⟨s.nextId, derivedTitle s.dashboards t pid, some fid⟩] ++ news)
        rw [List.append_assoc]
      · have hs'B : s'.dashboards =
            B ++ ((ext ++ [⟨s.nextId, derivedTitle s.dashboards t pid, some fid⟩]) ++ news) := by
          rw [hdash]
          show (s.dashboards ++ [⟨s.nextId, derivedTitle s.dashboards t pid, some fid⟩]) ++
              news =
            B ++ ((ext ++ [⟨s.nextId, derivedTitle s.dashboards t pid, some fid⟩]) ++ news)
          rw [hB]
          simp [List.append_assoc]
        have hdt' : derivedTitle s'.dashboards t pid = derivedTitle B t pid := by
          rw [hs'B]
          exact derivedTitle_append B _ t pid htpl_t
        have hda' : dashAnswer s'.dashboards (derivedTitle B t pid) = some s.nextId := by
          rw [hdtB] at hda
          have hins := dashAnswer_insert s.dashboards news
            ⟨s.nextId, derivedTitle s.dashboards t pid, some fid⟩ (derivedTitle B t pid)
            hda (by simpa using hdtB)
          rw [hdash] at *
          show dashAnswer ((s.dashboards ++
            [⟨s.nextId, derivedTitle s.dashboards t pid, some fid⟩]) ++ news)
            (derivedTitle B t pid) = some s.nextId
          exact hins
        unfold replayIds
        rw [hdt', hda']
        exact hreplay

/-- Summary of `ensure_group` on the fake: it succeeds, afterwards the
group search answers with the returned id, and folders, dashboards and the
SAML list are untouched. -/
theorem ensure_group_fake_summary (e : String) (s : FakeState) :
    ∃ gid s', ensure_group fakeSdk e s = (.ok gid, s') ∧
      groupAnswer s'.groups e = some gid ∧
      s'.folders = s.folders ∧ s'.dashboards = s.dashboards ∧ s'.saml = s.saml := by
  cases hg : groupAnswer s.groups e with
  | some gid => exact ⟨gid, _, ensure_group_fake_reuse e s gid hg, hg, rfl, rfl, rfl⟩
  | none =>
    exact ⟨s.nextId, _, ensure_group_fake_create e s hg,
      groupAnswer_append s.groups s.nextId e hg, rfl, rfl, rfl⟩

/-- Summary of `ensure_saml_group_mapping` on the fake: it succeeds,
afterwards the email is mapped, and groups, folders and dashboards are
untouched. -/
theorem ensure_saml_fake_summary (gid : Nat) (e : String) (s : FakeState) :
    ∃ s', ensure_saml_group_mapping fakeSdk gid e s = (.ok (), s') ∧
      samlHas s'.saml e = true ∧
      s'.groups = s.groups ∧ s'.folders = s.folders ∧ s'.dashboards = s.dashboards := by
  cases hs : samlHas s.saml e with
  | true => exact ⟨_, ensure_saml_fake_reuse gid e s hs, hs, rfl, rfl, rfl⟩
  | false =>
    exact ⟨_, ensure_saml_fake_add gid e s hs, samlHas_append s.saml e gid, rfl, rfl, rfl⟩

/-- Summary of `ensure_project_folder` on the fake: it succeeds,
afterwards the folder search answers with the returned id, and groups,
dashboards and the SAML list are untouched. -/
theorem ensure_folder_fake_summary (pid : String) (s : FakeState) :
    ∃ fid s', ensure_project_folder fakeSdk pid none s = (.ok fid, s') ∧
      folderAnswer s'.folders ("Project: " ++ pid) = some fid ∧
      s'.groups = s.groups ∧ s'.dashboards = s.dashboards ∧ s'.saml = s.saml := by
  cases hf : folderAnswer s.folders ("Project: " ++ pid) with
  | some fid => exact ⟨fid, _, ensure_folder_fake_reuse pid s fid hf, hf, rfl, rfl, rfl⟩
  | none =>
    exact ⟨s.nextId, _, ensure_folder_fake_create pid s hf,
      folderAnswer_append s.folders s.nextId ("Project: " ++ pid) none hf, rfl, rfl, rfl⟩

/-- Claim C1: against the stateful model of the remote platform, for every
project id, group email (both non-empty) and list of template dashboard
ids that exist as dashboards, calling `provision` twice with identical
inputs succeeds both times with the same `groupId`, `folderId` and
`dashboardIds`, and the second call issues only searches and reads — no
`create_group`, `create_folder`, `dashboard_copy` or `update_saml_config`
call appears in the call log of the second run. -/
theorem provision_twice_idempotent (pid email : String) (ts : List Nat)
    (corr1 corr2 : String) (s0 : FakeState)
    (hp : pid ≠ "") (he : email ≠ "")
    (htpl : ∀ t ∈ ts, (s0.dashboards.find? (fun d => d.id == t)).isSome = true) :
    ∃ r1 s1 r2 s2,
      provision fakeSdk pid email ts corr1 s0 = (.ok r1, s1) ∧
      provision fakeSdk pid email ts corr2 s1 = (.ok r2, s2) ∧
      r2.groupId = r1.groupId ∧ r2.folderId = r1.folderId ∧
      r2.dashboardIds = r1.dashboardIds ∧
      ∃ delta, s2.log = s1.log ++ delta ∧ ∀ ev ∈ delta, ev.isRead = true := by
  have hcond : ¬ (pid = "" ∨ email = "") := by
    rintro (h | h)
    · exact hp h
    · exact he h
  obtain ⟨gid, sA, hA, hGA, hAf, hAd, hAs⟩ := ensure_group_fake_summary email s0
  obtain ⟨sB, hB, hBs, hBg, hBf, hBd⟩ := ensure_saml_fake_summary gid email sA
  obtain ⟨fid, sC, hC, hCf, hCg, hCd, hCs⟩ := ensure_folder_fake_summary pid sB
  have hCd0 : sC.dashboards = s0.dashboards ++ [] := by
    rw [hCd, hBd, hAd]
    simp
  obtain ⟨ids, s1, news, hL, hLd, hLg, hLf, hLs, hreplay⟩ :=
    cloneLoop_fake_first s0.dashboards fid pid ts [] sC [] hCd0 htpl
  have hrun1 : provision fakeSdk pid email ts corr1 s0 =
      (.ok ⟨pid, email, gid, fid, ids, corr1⟩, s1) := by
    simp [provision, hcond, hA, hB, hC, hL]
  have hGA1 : groupAnswer s1.groups email = some gid := by
    rw [hLg, hCg, hBg]
    exact hGA
  have hS1 : samlHas s1.saml email = true := by
    rw [hLs, hCs]
    exact hBs
  have hF1 : folderAnswer s1.folders ("Project: " ++ pid) = some fid := by
    rw [hLf]
    exact hCf
  have h2A := ensure_group_fake_reuse email s1 gid hGA1
  have h2B := ensure_saml_fake_reuse gid email
    { s1 with log := s1.log ++ [.search_groups email] } hS1
  have h2C := ensure_folder_fake_reuse pid
    { s1 with log := (s1.log ++ [.search_groups email]) ++ [.saml_config_read] } fid hF1
  obtain ⟨s2, delta, h2L, h2g, h2f, h2s, h2d, h2log, h2read⟩ :=
    cloneLoop_fake_replay fid pid ts [] ids
      { s1 with log := ((s1.log ++ [.search_groups email]) ++ [.saml_config_read]) ++
          [.search_folders ("Project: " ++ pid)] } hreplay
  have hrun2 : provision fakeSdk pid email ts corr2 s1 =
      (.ok ⟨pid, email, gid, fid, ids, corr2⟩, s2) := by
    simp only [provision, hcond, if_false, h2A]
    simp only [h2B, h2C, h2L]
  refine ⟨_, s1, _, s2, hrun1, hrun2, rfl, rfl, rfl,
    ⟨([.search_groups email] ++ [.saml_config_read] ++
      [.search_folders ("Project: " ++ pid)]) ++ delta, ?_, ?_⟩⟩
  · rw [h2log]
    simp [List.append_assoc]
  · intro ev hev
    rcases List.mem_append.mp hev with hev | hev
    · simp only [List.append_assoc, List.cons_append, List.nil_append, List.mem_cons,
        List.not_mem_nil, or_false] at hev
      rcases hev with rfl | rfl | rfl <;> rfl
    · exact h2read ev hev

/-- Witness for C1 at concrete inputs: provisioning `demo-project` with
templates `[1, 2]` twice on a platform holding exactly those two template
dashboards. -/
theorem provision_twice_idempotent_witness :
    ∃ r1 s1 r2 s2,
      provision fakeSdk "demo-project" "analysts@company.com" [1, 2] "c1"
          ⟨[], [], [⟨1, "T1", none⟩, ⟨2, "T2", none⟩], [], [], 3, []⟩ = (.ok r1, s1) ∧
      provision fakeSdk "demo-project" "analysts@company.com" [1, 2] "c2" s1 = (.ok r2, s2) ∧
      r2.groupId = r1.groupId ∧ r2.folderId = r1.folderId ∧
      r2.dashboardIds = r1.dashboardIds ∧
      ∃ delta, s2.log = s1.log ++ delta ∧ ∀ ev ∈ delta, ev.isRead = true :=
  provision_twice_idempotent "demo-project" "analysts@company.com" [1, 2] "c1" "c2"
    ⟨[], [], [⟨1, "T1", none⟩, ⟨2, "T2", none⟩], [], [], 3, []⟩
    (by decide) (by decide) (by decide)

end IamLooker
